import Mathlib

/-!
Verification development for the netsec security-orchestration backend.

The Python source is shallowly embedded: pure functions become Lean
functions, stateful classes become explicit state passing, wall-clock
reads (`datetime.now`) become explicit integer-time arguments, and
external nondeterminism (child processes, adapters, XML parsing by the
standard library, uuid generation) becomes explicit parameters.
Fallible code returns `Except`.
-/

namespace NetSec

/-! ## SHA-256 (as used by `hashlib.sha256(...).hexdigest()` in
`netsec/pipeline/normalization.py`), over `Nat` with explicit `% 2^32`. -/

/-- Rotate a 32-bit word (a `Nat` below `2 ^ 32`) right by `n` bits. -/
def rotr32 (n x : Nat) : Nat :=
  ((x >>> n) ||| (x <<< (32 - n))) % 4294967296

/-- The 64 SHA-256 round constants (decimal). -/
def sha256K : List Nat :=
  [1116352408, 1899447441, 3049323471, 3921009573, 961987163, 1508970993,
   2453635748, 2870763221, 3624381080, 310598401, 607225278, 1426881987,
   1925078388, 2162078206, 2614888103, 3248222580, 3835390401, 4022224774,
   264347078, 604807628, 770255983, 1249150122, 1555081692, 1996064986,
   2554220882, 2821834349, 2952996808, 3210313671, 3336571891, 3584528711,
   113926993, 338241895, 666307205, 773529912, 1294757372, 1396182291,
   1695183700, 1986661051, 2177026350, 2456956037, 2730485921, 2820302411,
   3259730800, 3345764771, 3516065817, 3600352804, 4094571909, 275423344,
   430227734, 506948616, 659060556, 883997877, 958139571, 1322822218,
   1537002063, 1747873779, 1955562222, 2024104815, 2227730452, 2361852424,
   2428436474, 2756734187, 3204031479, 3329325298]

/-- SHA-256 working state: eight 32-bit words. -/
structure H8 where
  a : Nat
  b : Nat
  c : Nat
  d : Nat
  e : Nat
  f : Nat
  g : Nat
  h : Nat
deriving Repr, DecidableEq

/-- SHA-256 initial hash value (decimal). -/
def sha256H0 : H8 :=
  ⟨1779033703, 3144134277, 1013904242, 2773480762,
   1359893119, 2600822924, 528734635, 1541459225⟩

/-- Extend the message schedule by one word. -/
def extendW (w : Array Nat) : Array Nat :=
  let i := w.size
  let w15 := w.getD (i - 15) 0
  let w2 := w.getD (i - 2) 0
  let s0 := ((rotr32 7 w15) ^^^ (rotr32 18 w15)) ^^^ (w15 >>> 3)
  let s1 := ((rotr32 17 w2) ^^^ (rotr32 19 w2)) ^^^ (w2 >>> 10)
  w.push ((w.getD (i - 16) 0 + s0 + w.getD (i - 7) 0 + s1) % 4294967296)

/-- One SHA-256 compression round. -/
def compressStep (s : H8) (kw : Nat × Nat) : H8 :=
  let S1 := ((rotr32 6 s.e) ^^^ (rotr32 11 s.e)) ^^^ (rotr32 25 s.e)
  let ch := (s.e &&& s.f) ^^^ ((s.e ^^^ 4294967295) &&& s.g)
  let temp1 := (s.h + S1 + ch + kw.1 + kw.2) % 4294967296
  let S0 := ((rotr32 2 s.a) ^^^ (rotr32 13 s.a)) ^^^ (rotr32 22 s.a)
  let maj := ((s.a &&& s.b) ^^^ (s.a &&& s.c)) ^^^ (s.b &&& s.c)
  let temp2 := (S0 + maj) % 4294967296
  ⟨(temp1 + temp2) % 4294967296, s.a, s.b, s.c,
   (s.d + temp1) % 4294967296, s.e, s.f, s.g⟩

/-- Big-endian 32-bit words of one 64-byte chunk. -/
def chunkWords (chunk : List Nat) : List Nat :=
  (List.range 16).map (fun i =>
    chunk.getD (4 * i) 0 * 16777216 + chunk.getD (4 * i + 1) 0 * 65536 +
    chunk.getD (4 * i + 2) 0 * 256 + chunk.getD (4 * i + 3) 0)

/-- Process one 64-byte chunk into the running hash. -/
def processChunk (s : H8) (chunk : List Nat) : H8 :=
  let w0 : Array Nat := (chunkWords chunk).toArray
  let w := (List.range 48).foldl (fun w _ => extendW w) w0
  let t := (sha256K.zip w.toList).foldl compressStep s
  ⟨(s.a + t.a) % 4294967296, (s.b + t.b) % 4294967296,
   (s.c + t.c) % 4294967296, (s.d + t.d) % 4294967296,
   (s.e + t.e) % 4294967296, (s.f + t.f) % 4294967296,
   (s.g + t.g) % 4294967296, (s.h + t.h) % 4294967296⟩

/-- SHA-256 padding: append `0x80`, zeros, then the 64-bit big-endian bit length. -/
def sha256Pad (msg : List Nat) : List Nat :=
  let len := msg.length
  let bitLen := 8 * len
  let z := (119 - len % 64) % 64
  msg ++ [128] ++ List.replicate z 0 ++
    (List.range 8).map (fun i => (bitLen >>> (8 * (7 - i))) % 256)

/-- SHA-256 of a byte sequence, as the eight final hash words. -/
def sha256Words (msg : List Nat) : H8 :=
  let padded := sha256Pad msg
  let cs := (List.range (padded.length / 64)).map (fun i => (padded.drop (64 * i)).take 64)
  cs.foldl processChunk sha256H0

/-- Lowercase hex digit. -/
def hexDigit (n : Nat) : Char :=
  if n < 10 then Char.ofNat (48 + n) else Char.ofNat (87 + n)

/-- A 32-bit word as 8 lowercase hex characters. -/
def toHex8 (n : Nat) : String :=
  String.mk ((List.range 8).map (fun i => hexDigit ((n >>> (4 * (7 - i))) % 16)))

/-- UTF-8 encoding of one code point (Python `str.encode()`). -/
def utf8EncodeChar (c : Nat) : List Nat :=
  if c < 128 then [c]
  else if c < 2048 then [192 + c / 64, 128 + c % 64]
  else if c < 65536 then [224 + c / 4096, 128 + (c / 64) % 64, 128 + c % 64]
  else [240 + c / 262144, 128 + (c / 4096) % 64, 128 + (c / 64) % 64, 128 + c % 64]

/-- UTF-8 bytes of a string. -/
def strUtf8 (s : String) : List Nat :=
  s.data.foldr (fun c acc => utf8EncodeChar c.toNat ++ acc) []

/-- `hashlib.sha256(s.encode()).hexdigest()`: 64 lowercase hex chars. -/
def sha256Hex (s : String) : String :=
  let w := sha256Words (strUtf8 s)
  toHex8 w.a ++ toHex8 w.b ++ toHex8 w.c ++ toHex8 w.d ++
  toHex8 w.e ++ toHex8 w.f ++ toHex8 w.g ++ toHex8 w.h

/-! ## Raw payloads (`dict[str, Any]`)

Raw alert payloads are modelled as insertion-ordered maps to strings,
integers, and nested maps — the shapes the normalizers read. Python
`str()` of an integer is its decimal representation; `str()` of a dict
is approximated by the empty string (no claim reads it, and no
transformer applies `str()` to a dict in practice). -/

inductive PyVal where
  | str (s : String)
  | int (n : Int)
  | dict (d : List (String × PyVal))

abbrev PyDict := List (String × PyVal)

/-- Python `d.get(k, default)`. -/
def pyGet (d : PyDict) (k : String) (dflt : PyVal) : PyVal :=
  match d.find? (fun p => p.1 == k) with
  | some p => p.2
  | none => dflt

/-- Python `str()` restricted to the payload values we model. -/
def PyVal.asStr : PyVal → String
  | .str s => s
  | .int n => toString n
  | .dict _ => ""

/-- The sub-dict at key `k` (a non-dict value would raise in Python;
no transformer input exercises that). -/
def pyGetDict (d : PyDict) (k : String) : PyDict :=
  match pyGet d k (.dict []) with
  | .dict dd => dd
  | _ => []

/-- `d.get(k, dflt)` where an integer is expected. -/
def pyGetInt (d : PyDict) (k : String) (dflt : Int) : Int :=
  match pyGet d k (.int dflt) with
  | .int n => n
  | _ => dflt

/-- Generic Python dict write `m[k] = v`: update in place or append. -/
def dictSet {α : Type} (l : List (String × α)) (k : String) (v : α) : List (String × α) :=
  if l.any (fun p => p.1 == k) then
    l.map (fun p => if p.1 == k then (k, v) else p)
  else l ++ [(k, v)]

/-- Generic Python dict read returning `none` when the key is absent. -/
def dictGet? {α : Type} (l : List (String × α)) (k : String) : Option α :=
  (l.find? (fun p => p.1 == k)).map (·.2)

/-- Substring test (`"attack" in note_lower`), via `splitOn`. -/
def strContains (s sub : String) : Bool :=
  (s.splitOn sub).length > 1

/-! ## `netsec/pipeline/normalization.py` -/

/-- `NormalizedAlert` — tool-agnostic alert representation. The
`timestamp` dataclass field (defaulting to `datetime.now(timezone.utc)`)
is not modelled: wall-clock time enters the pipeline embedding as
explicit integer arguments and no transformer or claim reads it. -/
structure NormalizedAlert where
  title : String
  description : String := ""
  severity : String := "info"
  source_tool : String := ""
  source_event_id : String := ""
  category : String := ""
  device_ip : String := ""
  fingerprint : String := ""
  raw_data : PyDict := []

namespace AlertNormalizer

/-- `_suricata_severity`: `{1: "critical", 2: "high", 3: "medium"}.get(level, "low")`. -/
def suricata_severity : PyVal → String
  | .int 1 => "critical"
  | .int 2 => "high"
  | .int 3 => "medium"
  | _ => "low"

/-- `_zeek_severity`. -/
def zeek_severity (note : String) : String :=
  let note_lower := note.toLower
  if strContains note_lower "attack" || strContains note_lower "exploit" then "critical"
  else if strContains note_lower "scan" then "medium"
  else "info"

/-- `_cvss_to_severity`; the CVSS score (a Python float) is modelled at
integer precision — the thresholds 9.0, 7.0, 4.0 and 0 are integral and
no claim exercises fractional scores. -/
def cvss_to_severity (score : Int) : String :=
  if score ≥ 9 then "critical"
  else if score ≥ 7 then "high"
  else if score ≥ 4 then "medium"
  else if score > 0 then "low"
  else "info"

/-- `_ossec_severity`. -/
def ossec_severity (level : Int) : String :=
  if level ≥ 12 then "critical"
  else if level ≥ 8 then "high"
  else if level ≥ 4 then "medium"
  else if level ≥ 2 then "low"
  else "info"

/-- `_normalize_nmap`. -/
def normalize_nmap (data : PyDict) : NormalizedAlert :=
  { title := (pyGet data "title" (.str "Nmap finding")).asStr
    description := (pyGet data "output" (.str "")).asStr
    severity := (pyGet data "severity" (.str "info")).asStr
    category := "vulnerability"
    device_ip := (pyGet data "host" (.str "")).asStr
    raw_data := data }

/-- `_normalize_suricata`. -/
def normalize_suricata (data : PyDict) : NormalizedAlert :=
  let alert_data := pyGetDict data "alert"
  { title := (pyGet alert_data "signature" (.str "Suricata alert")).asStr
    description := "Category: " ++ (pyGet alert_data "category" (.str "unknown")).asStr
    severity := suricata_severity (pyGet alert_data "severity" (.int 3))
    source_event_id := (pyGet alert_data "signature_id" (.str "")).asStr
    category := "intrusion"
    device_ip := (pyGet data "src_ip" (.str "")).asStr
    raw_data := data }

/-- `_normalize_zeek`. -/
def normalize_zeek (data : PyDict) : NormalizedAlert :=
  { title := (pyGet data "note" (.str "Zeek notice")).asStr
    description := (pyGet data "msg" (.str "")).asStr
    severity := zeek_severity (pyGet data "note" (.str "")).asStr
    category := "anomaly"
    device_ip := (pyGet data "src" (.str "")).asStr
    raw_data := data }

/-- `_normalize_openvas`. -/
def normalize_openvas (data : PyDict) : NormalizedAlert :=
  let cvss := pyGetInt data "cvss_score" 0
  { title := (pyGet data "name" (.str "OpenVAS finding")).asStr
    description := (pyGet data "description" (.str "")).asStr
    severity := cvss_to_severity cvss
    category := "vulnerability"
    device_ip := (pyGet data "host" (.str "")).asStr
    source_event_id := (pyGet data "oid" (.str "")).asStr
    raw_data := data }

/-- `_normalize_clamav`. -/
def normalize_clamav (data : PyDict) : NormalizedAlert :=
  { title := "Malware detected: " ++ (pyGet data "signature" (.str "unknown")).asStr
    description := "File: " ++ (pyGet data "file" (.str "unknown")).asStr
    severity := "high"
    category := "malware"
    device_ip := (pyGet data "host" (.str "")).asStr
    raw_data := data }

/-- `_normalize_ossec`. -/
def normalize_ossec (data : PyDict) : NormalizedAlert :=
  let level := pyGetInt data "level" 0
  { title := (pyGet data "description" (.str "OSSEC alert")).asStr
    description := (pyGet data "full_log" (.str "")).asStr
    severity := ossec_severity level
    source_event_id := (pyGet data "rule_id" (.str "")).asStr
    category := "intrusion"
    device_ip := (pyGet data "srcip" (.str "")).asStr
    raw_data := data }

/-- `_normalize_fail2ban`. -/
def normalize_fail2ban (data : PyDict) : NormalizedAlert :=
  { title := "IP banned: " ++ (pyGet data "ip" (.str "unknown")).asStr ++
             " in jail " ++ (pyGet data "jail" (.str "unknown")).asStr
    description := "Failures: " ++ (pyGet data "failures" (.int 0)).asStr
    severity := "medium"
    category := "policy"
    device_ip := (pyGet data "ip" (.str "")).asStr
    raw_data := data }

/-- `_normalize_generic`. -/
def normalize_generic (source : String) (data : PyDict) : NormalizedAlert :=
  { title := (pyGet data "title" (pyGet data "message" (.str ("Alert from " ++ source)))).asStr
    description := (pyGet data "description" (.str "")).asStr
    severity := (pyGet data "severity" (.str "info")).asStr
    category := (pyGet data "category" (.str "unknown")).asStr
    device_ip := (pyGet data "ip" (pyGet data "host" (.str ""))).asStr
    raw_data := data }

/-- `_generate_fingerprint`: first 16 hex chars of the SHA-256 of
`f"{alert.source_tool}:{alert.category}:{alert.title}:{alert.device_ip}"`. -/
def generate_fingerprint (alert : NormalizedAlert) : String :=
  let key := alert.source_tool ++ ":" ++ alert.category ++ ":" ++ alert.title ++ ":" ++ alert.device_ip
  (sha256Hex key).take 16

/-- The per-tool transformer dispatch (`self._normalizers.get(source_tool)`
falling back to `_normalize_generic`). -/
def transformerFor (source_tool : String) (raw_data : PyDict) : NormalizedAlert :=
  if source_tool = "nmap" then normalize_nmap raw_data
  else if source_tool = "suricata" then normalize_suricata raw_data
  else if source_tool = "zeek" then normalize_zeek raw_data
  else if source_tool = "openvas" then normalize_openvas raw_data
  else if source_tool = "clamav" then normalize_clamav raw_data
  else if source_tool = "ossec" then normalize_ossec raw_data
  else if source_tool = "fail2ban" then normalize_fail2ban raw_data
  else normalize_generic source_tool raw_data

/-- `AlertNormalizer.normalize`: transform, fill the fingerprint if it
is empty, then (re)stamp `source_tool` — in that order, as the source does. -/
def normalize (source_tool : String) (raw_data : PyDict) : NormalizedAlert :=
  let alert := transformerFor source_tool raw_data
  let alert :=
    if alert.fingerprint = "" then
      { alert with fingerprint := generate_fingerprint alert }
    else alert
  { alert with source_tool := source_tool }

end AlertNormalizer

/-! ## `netsec/pipeline/deduplication.py` -/

/-- Deduplicator state: `_window` (seconds), `_max_size`, and the
`_seen` dict (`fingerprint -> (first_seen, last_seen, count)`) as an
insertion-ordered association list. Timestamps are integer seconds; the
`datetime.now(timezone.utc)` read becomes the explicit `now` argument. -/
structure AlertDeduplicator where
  window : Int
  max_size : Nat
  seen : List (String × (Int × Int × Int))

namespace AlertDeduplicator

/-- `_evict_oldest`: remove the oldest `len(seen) // 4 or 1` entries by
ascending `last_seen` (Python `sorted` is stable, as is `mergeSort`);
deletion keeps the surviving entries in insertion order. -/
def evict_oldest (seen : List (String × (Int × Int × Int))) :
    List (String × (Int × Int × Int)) :=
  let count_to_remove := if seen.length / 4 = 0 then 1 else seen.length / 4
  let sorted_fps := (seen.mergeSort (fun p q => decide (p.2.2.1 ≤ q.2.2.1))).map (·.1)
  seen.filter (fun p => !((sorted_fps.take count_to_remove).contains p.1))

/-- `check(alert)` at explicit time `now`: `(is_new, count)` plus the
successor state. -/
def check (d : AlertDeduplicator) (alert : NormalizedAlert) (now : Int) :
    (Bool × Int) × AlertDeduplicator :=
  let fp := alert.fingerprint
  match dictGet? d.seen fp with
  | some (first_seen, last_seen, count) =>
    if now - last_seen ≤ d.window then
      ((false, count + 1), { d with seen := dictSet d.seen fp (first_seen, now, count + 1) })
    else
      ((true, 1), { d with seen := dictSet d.seen fp (now, now, 1) })
  | none =>
    let seen := if d.seen.length ≥ d.max_size then evict_oldest d.seen else d.seen
    ((true, 1), { d with seen := dictSet seen fp (now, now, 1) })

/-- `cleanup()`: drop entries with `now - last_seen > window * 2`;
returns the number removed (keys are unique, so the count is the number
of entries matching the expiry predicate). -/
def cleanup (d : AlertDeduplicator) (now : Int) : Nat × AlertDeduplicator :=
  let expired := d.seen.filter (fun p => decide (now - p.2.2.1 > d.window * 2))
  (expired.length,
   { d with seen := d.seen.filter (fun p => !(decide (now - p.2.2.1 > d.window * 2))) })

end AlertDeduplicator

/-! ## `netsec/pipeline/correlation.py` -/

/-- Correlator state: `_window` (seconds) and the `_recent` defaultdict
(`device_ip -> list of (alert, correlation_id, timestamp)`). The
`uuid4().hex` read in `correlate` becomes the explicit `uuid_hex`
argument. -/
structure AlertCorrelator where
  window : Int
  recent : List (String × List (NormalizedAlert × String × Int))

namespace AlertCorrelator

/-- `correlate(alert)` at explicit time `now`: the returned correlation
id (if any) plus the successor state. -/
def correlate (c : AlertCorrelator) (alert : NormalizedAlert) (now : Int)
    (uuid_hex : String) : Option String × AlertCorrelator :=
  if alert.device_ip = "" then (none, c)
  else
    let device_alerts := (dictGet? c.recent alert.device_ip).getD []
    let device_alerts := device_alerts.filter (fun e => decide (now - e.2.2 ≤ c.window))
    match device_alerts.find? (fun e => e.1.source_tool != alert.source_tool) with
    | some e =>
      (some e.2.1,
       { c with recent := dictSet c.recent alert.device_ip (device_alerts ++ [(alert, e.2.1, now)]) })
    | none =>
      let new_correlation_id := uuid_hex.take 12
      (some new_correlation_id,
       { c with recent := dictSet c.recent alert.device_ip
                  (device_alerts ++ [(alert, new_correlation_id, now)]) })

end AlertCorrelator

/-! ## `netsec/adapters/base.py` and `netsec/core/events.py` -/

/-- `ToolStatus` (a `StrEnum` in the source). -/
inductive ToolStatus where
  | available
  | unavailable
  | running
  | error
  | unknown
deriving DecidableEq, Repr

/-- The `StrEnum` string value of a `ToolStatus`. -/
def ToolStatus.value : ToolStatus → String
  | .available => "available"
  | .unavailable => "unavailable"
  | .running => "running"
  | .error => "error"
  | .unknown => "unknown"

/-- A published bus event, keeping the `type`, `source` and the string
renderings of the `data` map (`None` values render as the empty string;
no claim reads one). -/
structure MEvent where
  type : String
  source : String
  data : List (String × String)
deriving DecidableEq, Repr

/-- The relevant state of one registered adapter: its declared name and
its internal `_status` (what `tool_info().status` reports — every
adapter's `tool_info` builds a fresh descriptor carrying `self._status`). -/
structure MAdapter where
  name : String
  status : ToolStatus
deriving DecidableEq, Repr

/-! ## `netsec/services/monitoring_service.py` -/

namespace MonitoringService

/-- The loop body of `check_tool_health` (lines 77-99): accumulate the
published events and update the previous-status map for one
`(tool_name, status)` pair. -/
def healthStep (acc : List MEvent × List (String × ToolStatus))
    (p : String × ToolStatus) : List MEvent × List (String × ToolStatus) :=
  let events :=
    match dictGet? acc.2 p.1 with
    | some previous =>
      if previous ≠ p.2 then
        acc.1 ++ [⟨(if p.2 = ToolStatus.available then "tool.online" else "tool.offline"),
          "monitoring_service",
          [("tool", p.1), ("status", p.2.value), ("previous_status", previous.value)]⟩]
      else acc.1
    | none => acc.1
  (events, dictSet acc.2 p.1 p.2)

/-- `check_tool_health`: the `health_check_all` results arrive as the
explicit `results` list (a dict in insertion order); `prev` is the
`_previous_tool_status` map. Returns the published events, the updated
previous-status map, and the returned `{name: status.value}` dict. The
write-only local `status_changes` of the source is not modelled. -/
def check_tool_health (prev : List (String × ToolStatus))
    (results : List (String × ToolStatus)) :
    List MEvent × List (String × ToolStatus) × List (String × String) :=
  ((results.foldl healthStep ([], prev)).1,
   (results.foldl healthStep ([], prev)).2,
   results.map (fun p => (p.1, p.2.value)))

end MonitoringService

/-! ## `netsec/adapters/registry.py` -/

/-- Registry state: the `_adapters` dict (insertion-ordered, keyed by
the adapter's declared name) and the `_initialized` flag. -/
structure AdapterRegistry where
  adapters : List MAdapter
  initialized : Bool

namespace AdapterRegistry

/-- `init_all`. Adapter behaviour is passed explicitly: `detectFn`
returns the adapter's successor state (its own `_status` writes) plus
the detect outcome (`Except.error` for a raised exception — mutations
made before the raise persist); `startFn` is the `start` hook's outcome.
The registry's own `info.status = ...` writes land on the fresh
descriptor copy that `tool_info()` returns, so they do not change
adapter state and are not modelled. Returns the `{name: available}`
result dict, the successor registry, and the trace of `detect`/`start`
invocations. -/
def init_all (r : AdapterRegistry)
    (detectFn : MAdapter → MAdapter × Except String Bool)
    (startFn : String → Except String Unit) :
    List (String × Bool) × AdapterRegistry × List (String × String) :=
  if r.initialized then
    (r.adapters.map (fun a => (a.name, a.status == ToolStatus.available)), r, [])
  else
    let step := fun (acc : List (String × Bool) × List MAdapter × List (String × String))
        (a : MAdapter) =>
      match (detectFn a).2 with
      | .ok true =>
        match startFn (detectFn a).1.name with
        | .ok _ => (acc.1 ++ [(a.name, true)], acc.2.1 ++ [(detectFn a).1],
                    acc.2.2 ++ [(a.name, "detect"), (a.name, "start")])
        | .error _ => (acc.1 ++ [(a.name, false)], acc.2.1 ++ [(detectFn a).1],
                       acc.2.2 ++ [(a.name, "detect"), (a.name, "start")])
      | .ok false => (acc.1 ++ [(a.name, false)], acc.2.1 ++ [(detectFn a).1],
                      acc.2.2 ++ [(a.name, "detect")])
      | .error _ => (acc.1 ++ [(a.name, false)], acc.2.1 ++ [(detectFn a).1],
                     acc.2.2 ++ [(a.name, "detect")])
    ((r.adapters.foldl step ([], [], [])).1,
     { adapters := (r.adapters.foldl step ([], [], [])).2.1, initialized := true },
     (r.adapters.foldl step ([], [], [])).2.2)

end AdapterRegistry

/-! ## `netsec/adapters/process.py` -/

/-- `ProcessResult` dataclass. -/
structure ProcessResult where
  returncode : Int
  stdout : String
  stderr : String
  command : String
  timed_out : Bool
deriving DecidableEq, Repr

/-- The `success` property: `returncode == 0 and not timed_out`. -/
def ProcessResult.success (r : ProcessResult) : Bool :=
  r.returncode == 0 && !r.timed_out

/-- Outcome of `proc.communicate()` under `asyncio.wait_for`: normal
completion with captured output and exit code, or a timeout — after
which the source kills the process and drains residual output, and
`proc.returncode` (or `-1`) is reported. -/
inductive CommOutcome where
  | completed (stdout stderr : String) (rc : Int)
  | timedOut (stdout stderr : String) (rc : Int)
deriving DecidableEq, Repr

/-- `shlex.split` restricted to whitespace splitting (no claim uses
quoted arguments). -/
def shlexSplit (s : String) : List String :=
  (s.splitOn " ").filter (fun t => t ≠ "")

/-- `run_command` on a POSIX platform (`sys.platform != "win32"`), with
the executable set of the host and the child-process behaviour as
explicit parameters. `asyncio.create_subprocess_exec` raises
`FileNotFoundError` when the binary does not exist, and the source has
no handler around the spawn — the embedding returns `Except.error`
there. -/
def run_command (binaries : List String) (comm : CommOutcome)
    (command : String ⊕ List String) : Except String ProcessResult :=
  let parts : String × List String :=
    match command with
    | .inl s => (s, shlexSplit s)
    | .inr l => (String.intercalate " " l, l)
  let cmd_str := parts.1
  match parts.2.head? with
  | none => .error "ValueError: empty command"
  | some bin =>
    if binaries.contains bin then
      match comm with
      | .completed out err rc => .ok ⟨rc, out, err, cmd_str, false⟩
      | .timedOut out err rc => .ok ⟨rc, out, err, cmd_str, true⟩
    else
      .error ("FileNotFoundError: " ++ bin)

/-! ## `netsec/services/device_service.py` -/

/-- One entry of a scan host's `ports` list, by the keys
`_upsert_port` reads; `none` marks an absent key. -/
structure PortData where
  port : Option Int := none
  protocol : Option String := none
  state : Option String := none
  service : Option String := none
  version : Option String := none
  product : Option String := none

/-- A scan host record, by the keys `upsert_from_scan` reads:
`addresses.{ipv4,mac,vendor}`, the `name` of each `hostnames` entry,
`status`, `os.name`, and `ports`. -/
structure HostData where
  ipv4 : Option String := none
  mac : Option String := none
  vendor : Option String := none
  hostnames : List String := []
  status : Option String := none
  os_name : Option String := none
  ports : List PortData := []

/-- The `Port` model row. -/
structure MPort where
  id : String
  device_id : String
  port_number : Int
  protocol : String
  state : String
  service_name : Option String
  service_version : Option String
  banner : Option String

/-- The `Device` model row, with integer-second timestamps. -/
structure MDevice where
  id : String
  ip_address : String
  mac_address : Option String := none
  hostname : Option String := none
  vendor : Option String := none
  os_family : Option String := none
  status : String := "online"
  first_seen : Int
  last_seen : Int
  ports : List MPort := []

/-- Python truthiness of an optional string (`None` and `""` are falsy). -/
def optTruthy : Option String → Bool
  | some s => s ≠ ""
  | none => false

namespace DeviceService

/-- `_upsert_port`: match an existing port on (number, protocol), else
create one (with the fresh uuid `port_id`); on update, never overwrite
a service name/version with a falsy incoming value. -/
def upsert_port (device : MDevice) (port_data : PortData) (port_id : String) : MDevice :=
  let port_num := port_data.port.getD 0
  let protocol := port_data.protocol.getD "tcp"
  match device.ports.find? (fun p => p.port_number == port_num && p.protocol == protocol) with
  | none =>
    let port : MPort :=
      { id := port_id, device_id := device.id, port_number := port_num,
        protocol := protocol,
        state := port_data.state.getD "open", service_name := port_data.service,
        service_version := port_data.version, banner := port_data.product }
    { device with ports := device.ports ++ [port] }
  | some p =>
    let p' := { p with
      state := port_data.state.getD p.state,
      service_name := if optTruthy port_data.service then port_data.service else p.service_name,
      service_version := if optTruthy port_data.version then port_data.version else p.service_version }
    { device with
      ports := device.ports.map
        (fun q => if q.port_number == port_num && q.protocol == protocol then p' else q) }

/-- The OS-info and ports section shared by both `upsert_from_scan`
branches; `pid` supplies the fresh uuid for the i-th ports entry. -/
def apply_os_and_ports (device : MDevice) (h : HostData) (pid : Nat → String) : MDevice :=
  let device :=
    if optTruthy h.os_name then { device with os_family := h.os_name } else device
  (h.ports.enum).foldl (fun dev ip => upsert_port dev ip.2 (pid ip.1)) device

/-- `upsert_from_scan` over an explicit device store (`_find_device`
returns the first store entry matching on IP, or on MAC when the scan
reported one). `now` is the `datetime.now` read, `new_id` the uuid for
a newly created device. Returns the device, the successor store, and
the published event. -/
def upsert_from_scan (store : List MDevice) (h : HostData) (now : Int)
    (new_id : String) (pid : Nat → String) : MDevice × List MDevice × MEvent :=
  let ip := h.ipv4.getD ""
  let mac := h.mac
  let vendor := h.vendor
  let hostname := h.hostnames.head?
  let found := store.find? (fun d => d.ip_address == ip || (optTruthy mac && d.mac_address == mac))
  match found with
  | none =>
    let device : MDevice :=
      { id := new_id, ip_address := ip, mac_address := mac, hostname := hostname,
        vendor := vendor, status := h.status.getD "online",
        first_seen := now, last_seen := now }
    let device := apply_os_and_ports device h pid
    (device, store ++ [device],
     ⟨"device.discovered", "device_service",
      [("device_id", device.id), ("ip", device.ip_address), ("hostname", device.hostname.getD "")]⟩)
  | some d =>
    let d' := { d with
      mac_address := if optTruthy mac && !(optTruthy d.mac_address) then mac else d.mac_address,
      hostname := if optTruthy hostname && !(optTruthy d.hostname) then hostname else d.hostname,
      vendor := if optTruthy vendor && !(optTruthy d.vendor) then vendor else d.vendor,
      last_seen := now,
      status := h.status.getD d.status }
    let d' := apply_os_and_ports d' h pid
    (d', store.map (fun x => if x.id == d.id then d' else x),
     ⟨"device.updated", "device_service",
      [("device_id", d'.id), ("ip", d'.ip_address), ("hostname", d'.hostname.getD "")]⟩)

end DeviceService

/-! ## `netsec/services/scan_service.py` -/

/-- The adapter `execute` result map, by the keys `create_scan` reads:
the `error` key when present, `hosts`, and the `hosts_up`/`hosts_down`
counters of a non-empty `stats` sub-dict. -/
structure ExecResult where
  error? : Option String := none
  hosts : List HostData := []
  stats? : Option (Int × Int) := none

/-- The `Scan` model row, with integer-second timestamps. -/
structure MScan where
  id : String
  scan_type : String
  tool : String
  target : String
  status : String
  parameters : PyDict := []
  progress : Int := 0
  error_message : Option String := none
  result_summary : Option String := none
  results : Option ExecResult := none
  devices_found : Nat := 0
  started_at : Option Int := none
  completed_at : Option Int := none

namespace ScanService

/-- `_map_scan_type_to_task`. -/
def map_scan_type_to_task (scan_type tool : String) : String :=
  if scan_type = "network" ∧ tool = "nmap" then "quick_scan"
  else if scan_type = "vulnerability" ∧ tool = "nmap" then "vuln_scan"
  else if scan_type = "vulnerability" ∧ tool = "openvas" then "full_scan"
  else if scan_type = "traffic" ∧ tool = "tshark" then "capture"
  else if scan_type = "malware" ∧ tool = "clamav" then "scan"
  else "quick_scan"

/-- `_summarize_results`. -/
def summarize_results (result : ExecResult) : String :=
  match result.stats? with
  | some (up, down) => toString up ++ " hosts up, " ++ toString down ++ " down"
  | none => toString result.hosts.length ++ " hosts found"

/-- `{"target": target, **(parameters or {})}`: start from `target`,
then let the caller's parameters override. -/
def mergedParams (target : String) (parameters : PyDict) : PyDict :=
  parameters.foldl (fun acc p => dictSet acc p.1 p.2) [("target", PyVal.str target)]

/-- `create_scan`. `registryGet` is the `self.registry.get(tool)`
result; `execFn` the adapter's `execute` (raises become `Except.error`
and are caught by the handler, which records the failure and publishes
`scan.failed`); `scan_id` the generated uuid; `t_start`/`t_end` the two
`datetime.now` reads. Session flushes and event-bus publishes are
modelled as non-throwing effect accumulation, and the per-host
`upsert_from_scan` loop (whose failures the source catches and logs
per host) is modelled separately with the device service. Returns
`Except.error` for the two guard failures raised before a scan record
exists, otherwise the terminal scan record and the events published. -/
def create_scan (registryGet : Option MAdapter)
    (execFn : String → PyDict → Except String ExecResult)
    (scan_id scan_type tool target : String) (parameters : PyDict)
    (t_start t_end : Int) : Except String (MScan × List MEvent) :=
  match registryGet with
  | none => .error ("Unknown tool: " ++ tool)
  | some adapter =>
    if adapter.status ≠ ToolStatus.available then .error ("Tool not available: " ++ tool)
    else
      let scan : MScan :=
        { id := scan_id, scan_type := scan_type, tool := tool, target := target,
          status := "pending", parameters := parameters }
      let events : List MEvent :=
        [⟨"scan.started", "scan_service",
          [("scan_id", scan_id), ("tool", tool), ("target", target)]⟩]
      let scan := { scan with status := "running", started_at := some t_start, progress := 0 }
      let events := events ++
        [⟨"scan.progress", "scan_service",
          [("scan_id", scan_id), ("progress", "0"), ("status", "running")]⟩]
      let task := map_scan_type_to_task scan_type tool
      let params := mergedParams target parameters
      match execFn task params with
      | .ok result =>
        let scan :=
          match result.error? with
          | some err => { scan with status := "failed", error_message := some err }
          | none =>
            { scan with
              status := "completed"
              results := some result
              result_summary := some (summarize_results result)
              devices_found := result.hosts.length }
        let scan := { scan with completed_at := some t_end, progress := 100 }
        let events := events ++
          [⟨if scan.status = "completed" then "scan.completed" else "scan.failed", "scan_service",
            [("scan_id", scan_id), ("status", scan.status),
             ("devices_found", toString scan.devices_found)]⟩]
        .ok (scan, events)
      | .error e =>
        let scan :=
          { scan with status := "failed", error_message := some e, completed_at := some t_end }
        let events := events ++
          [⟨"scan.failed", "scan_service", [("scan_id", scan_id), ("error", e)]⟩]
        .ok (scan, events)

end ScanService

/-! ## `netsec/adapters/nmap.py` — `_parse_xml` / `_parse_host` -/

/-- An XML element tree (`xml.etree.ElementTree.Element`): tag,
attributes, children. -/
inductive XElem where
  | mk (tag : String) (attrs : List (String × String)) (children : List XElem)

def XElem.tag : XElem → String
  | .mk t _ _ => t

def XElem.attrs : XElem → List (String × String)
  | .mk _ a _ => a

def XElem.children : XElem → List XElem
  | .mk _ _ c => c

/-- `elem.get(key, default)` on the attribute map. -/
def XElem.get (e : XElem) (k dflt : String) : String :=
  (dictGet? e.attrs k).getD dflt

/-- `elem.get(key)` — `None` when absent. -/
def XElem.getOpt (e : XElem) (k : String) : Option String :=
  dictGet? e.attrs k

/-- `elem.findall(tag)`: direct children with the tag, in order. -/
def XElem.findall (e : XElem) (t : String) : List XElem :=
  e.children.filter (fun c => c.tag == t)

/-- `elem.find(tag)`: the first direct child with the tag, or `None`. -/
def XElem.find (e : XElem) (t : String) : Option XElem :=
  e.children.find? (fun c => c.tag == t)

/-- Python `int()` applied to an XML attribute (`int(elem.get(k, 0))`):
the absent case is the integer default `0`; a present attribute string
is converted, raising `ValueError` (`Except.error`) when it is not an
optionally-signed decimal numeral. -/
def pyInt (v : Option String) : Except String Int :=
  match v with
  | none => .ok 0
  | some s =>
    let t := ((s.data.dropWhile Char.isWhitespace).reverse.dropWhile Char.isWhitespace).reverse
    let signDigits : Int × List Char :=
      match t with
      | '-' :: rest => (-1, rest)
      | '+' :: rest => (1, rest)
      | _ => (1, t)
    if signDigits.2 ≠ [] ∧ signDigits.2.all (fun c => c.isDigit) then
      .ok (signDigits.1 * Int.ofNat (signDigits.2.foldl (fun n c => 10 * n + (c.toNat - 48)) 0))
    else .error ("invalid literal for int with base 10: " ++ s)

/-- One entry of a parsed host's `ports` list; the state and service
keys are set only when the corresponding child element exists. -/
structure ParsedPort where
  port : Int
  protocol : String
  state : Option String := none
  service_name : Option String := none
  product : Option String := none
  version : Option String := none
  extrainfo : Option String := none

/-- A parsed host record (`_parse_host` result). -/
structure ParsedHost where
  status : String := "unknown"
  addresses : List (String × String) := []
  hostnames : List (String × String) := []
  ports : List ParsedPort := []
  os : Option (String × String) := none

/-- The `scan_info` section of a parse result. -/
structure ScanInfo where
  scanner : String
  args : String
  start_time : String
  version : String

/-- The `stats` section (keys set only when the corresponding
`runstats` children exist). -/
structure ScanStats where
  elapsed : Option String := none
  summary : Option String := none
  hosts_up : Option Int := none
  hosts_down : Option Int := none
  hosts_total : Option Int := none

/-- The map `_parse_xml` returns: either the caught-parse-failure map
`{error: ..., raw: <first 2000 chars>}` or the structured result. -/
inductive NmapParse where
  | errorMap (error : String) (raw : String)
  | result (scan_info : ScanInfo) (hosts : List ParsedHost) (stats : ScanStats)

namespace NmapAdapter

/-- `_parse_host`. Only the `int(port.get("portid", 0))` conversion can
raise; everything else is total. -/
def parse_host (host_elem : XElem) : Except String ParsedHost := do
  let status :=
    match host_elem.find "status" with
    | some st => st.get "state" "unknown"
    | none => "unknown"
  let addresses := (host_elem.findall "address").foldl
    (fun acc addr =>
      let addr_type := addr.get "addrtype" ""
      let acc := dictSet acc addr_type (addr.get "addr" "")
      if addr_type == "mac" then dictSet acc "vendor" (addr.get "vendor" "") else acc)
    []
  let hostnames :=
    match host_elem.find "hostnames" with
    | some hns => (hns.findall "hostname").map (fun hn => (hn.get "name" "", hn.get "type" ""))
    | none => []
  let ports ←
    match host_elem.find "ports" with
    | some ports_elem => (ports_elem.findall "port").mapM (fun port => do
        let pnum ← pyInt (port.getOpt "portid")
        let base : ParsedPort := { port := pnum, protocol := port.get "protocol" "tcp" }
        let base :=
          match port.find "state" with
          | some st => { base with state := some (st.get "state" "") }
          | none => base
        let base :=
          match port.find "service" with
          | some sv =>
            { base with
              service_name := some (sv.get "name" "")
              product := some (sv.get "product" "")
              version := some (sv.get "version" "")
              extrainfo := some (sv.get "extrainfo" "") }
          | none => base
        pure base)
    | none => pure []
  let os :=
    match host_elem.find "os" with
    | some os_elem =>
      match os_elem.find "osmatch" with
      | some osmatch => some (osmatch.get "name" "", osmatch.get "accuracy" "")
      | none => none
    | none => none
  pure { status := status, addresses := addresses, hostnames := hostnames,
         ports := ports, os := os }

/-- `_parse_xml`. The `ET.fromstring` library call is the explicit
`fromstring` argument; its `ParseError` is the only exception the
source catches (yielding the error map). The `int(...)` conversions on
`runstats/hosts` attributes and port ids are outside that handler, so
their `ValueError` propagates (`Except.error`). -/
def parse_xml (fromstring : Except String XElem) (xml_str : String) :
    Except String NmapParse := do
  match fromstring with
  | .error e => pure (.errorMap ("XML parse error: " ++ e) (xml_str.take 2000))
  | .ok root =>
    let scan_info : ScanInfo :=
      { scanner := root.get "scanner" "nmap", args := root.get "args" "",
        start_time := root.get "start" "", version := root.get "version" "" }
    let hosts ← (root.findall "host").mapM parse_host
    let stats ←
      match root.find "runstats" with
      | some runstats => do
        let s : ScanStats := {}
        let s :=
          match runstats.find "finished" with
          | some fin =>
            { s with elapsed := some (fin.get "elapsed" ""), summary := some (fin.get "summary" "") }
          | none => s
        match runstats.find "hosts" with
        | some hosts_stat => do
          let up ← pyInt (hosts_stat.getOpt "up")
          let down ← pyInt (hosts_stat.getOpt "down")
          let total ← pyInt (hosts_stat.getOpt "total")
          pure { s with hosts_up := some up, hosts_down := some down, hosts_total := some total }
        | none => pure s
      | none => pure ({} : ScanStats)
    pure (.result scan_info hosts stats)

end NmapAdapter

/-! ## Helper lemmas -/

theorem string_empty_append (s : String) : "" ++ s = s := by
  cases s
  rfl

theorem find?_map_update_self {α : Type} (l : List (String × α)) (k : String) (v : α)
    (h : l.any (fun p => p.1 == k) = true) :
    (l.map (fun p => if p.1 == k then (k, v) else p)).find? (fun p => p.1 == k) = some (k, v) := by
  induction l with
  | nil => simp at h
  | cons p t ih =>
    by_cases hp : p.1 = k
    · have hp' : (p.1 == k) = true := by simpa using hp
      rw [List.map_cons, if_pos hp', List.find?_cons_of_pos _ (by simp)]
    · have hp' : (p.1 == k) = false := by simpa using hp
      have ht : t.any (fun p => p.1 == k) = true := by
        simpa [List.any_cons, hp'] using h
      rw [List.map_cons, if_neg (by simp [hp']), List.find?_cons_of_neg _ (by simp [hp'])]
      exact ih ht

theorem find?_map_update_ne {α : Type} (l : List (String × α)) (k k' : String) (v : α)
    (h : k' ≠ k) :
    (l.map (fun p => if p.1 == k then (k, v) else p)).find? (fun p => p.1 == k') =
      l.find? (fun p => p.1 == k') := by
  induction l with
  | nil => rfl
  | cons p t ih =>
    by_cases hp : p.1 = k
    · have hk : (k == k') = false := by simpa using (Ne.symm h)
      have hp2 : (p.1 == k') = false := by simpa [hp] using (Ne.symm h)
      rw [List.map_cons, if_pos (show (p.1 == k) = true by simpa using hp),
        List.find?_cons_of_neg _ (by simp [hk]), List.find?_cons_of_neg _ (by simp [hp2])]
      exact ih
    · have hp' : (p.1 == k) = false := by simpa using hp
      by_cases hq : p.1 = k'
      · rw [List.map_cons, if_neg (by simp [hp']),
          List.find?_cons_of_pos _ (by simp [hq]), List.find?_cons_of_pos _ (by simp [hq])]
      · have hq' : (p.1 == k') = false := by simpa using hq
        rw [List.map_cons, if_neg (by simp [hp']),
          List.find?_cons_of_neg _ (by simp [hq']), List.find?_cons_of_neg _ (by simp [hq'])]
        exact ih

theorem dictGet?_dictSet_self {α : Type} (l : List (String × α)) (k : String) (v : α) :
    dictGet? (dictSet l k v) k = some v := by
  unfold dictSet dictGet?
  by_cases h : l.any (fun p => p.1 == k)
  · rw [if_pos h, find?_map_update_self l k v h]
    rfl
  · have h' : l.find? (fun p => p.1 == k) = none := by
      rw [List.find?_eq_none]
      intro x hx
      by_contra hc
      exact h (List.any_eq_true.mpr ⟨x, hx, by simpa using hc⟩)
    rw [if_neg h, List.find?_append, h']
    simp

theorem dictGet?_dictSet_ne {α : Type} (l : List (String × α)) (k k' : String) (v : α)
    (h : k' ≠ k) : dictGet? (dictSet l k v) k' = dictGet? l k' := by
  unfold dictSet dictGet?
  by_cases hany : l.any (fun p => p.1 == k)
  · rw [if_pos hany, find?_map_update_ne l k k' v h]
  · have hk : (k == k') = false := by simpa using (Ne.symm h)
    rw [if_neg hany, List.find?_append]
    simp [hk]

set_option maxRecDepth 4000

/-- Every transformer (per-tool and generic) leaves `source_tool` and
`fingerprint` at their empty defaults. -/
theorem transformerFor_blank (s : String) (raw : PyDict) :
    (AlertNormalizer.transformerFor s raw).source_tool = "" ∧
    (AlertNormalizer.transformerFor s raw).fingerprint = "" := by
  unfold AlertNormalizer.transformerFor
  repeat' split
  all_goals exact ⟨rfl, rfl⟩

/-! ## C1 -/

/-- The concrete suricata record of the unit tests. -/
def c1raw : PyDict :=
  [("alert", .dict [("signature", .str "ET SCAN Nmap"), ("signature_id", .int 2001),
                    ("severity", .int 2), ("category", .str "Attempted Recon")]),
   ("src_ip", .str "192.168.1.100")]

/-- C1 counterexample: for the concrete suricata record whose transformed
alert has category "intrusion", title "ET SCAN Nmap" and device IP
192.168.1.100, the fingerprint `normalize` returns differs from the
first 16 hex chars of SHA-256 of "source:category:title:device-ip"
(with source = "suricata", the source argument): the fingerprint is
generated before `source_tool` is stamped, so the source never enters
the hash. -/
theorem c1_counterexample :
    (AlertNormalizer.normalize "suricata" c1raw).category = "intrusion" ∧
    (AlertNormalizer.normalize "suricata" c1raw).title = "ET SCAN Nmap" ∧
    (AlertNormalizer.normalize "suricata" c1raw).device_ip = "192.168.1.100" ∧
    (AlertNormalizer.normalize "suricata" c1raw).source_tool = "suricata" ∧
    (AlertNormalizer.normalize "suricata" c1raw).fingerprint ≠
      (sha256Hex ("suricata" ++ ":" ++ "intrusion" ++ ":" ++ "ET SCAN Nmap" ++ ":" ++
        "192.168.1.100")).take 16 := by
  refine ⟨rfl, rfl, rfl, rfl, ?_⟩
  decide

/-- C1 (amended): in every call to `normalize` the transformer leaves the
fingerprint empty and the returned alert's fingerprint equals the first
16 lowercase hex chars of the SHA-256 of ":category:title:device-ip" —
the `source_tool` component of the hash key is still the transformer's
empty default, because the stamp `alert.source_tool = source_tool`
happens only after fingerprinting. Consequently any two raw records
whose transformed (category, title, device-IP) agree receive equal
fingerprints, whatever their source arguments. -/
theorem c1_fingerprint_amended (source₁ source₂ : String) (raw₁ raw₂ : PyDict) :
    (AlertNormalizer.transformerFor source₁ raw₁).fingerprint = "" ∧
    (AlertNormalizer.normalize source₁ raw₁).fingerprint =
      (sha256Hex (":" ++ (AlertNormalizer.transformerFor source₁ raw₁).category ++ ":" ++
                  (AlertNormalizer.transformerFor source₁ raw₁).title ++ ":" ++
                  (AlertNormalizer.transformerFor source₁ raw₁).device_ip)).take 16 ∧
    ((AlertNormalizer.transformerFor source₁ raw₁).category =
        (AlertNormalizer.transformerFor source₂ raw₂).category →
      (AlertNormalizer.transformerFor source₁ raw₁).title =
        (AlertNormalizer.transformerFor source₂ raw₂).title →
      (AlertNormalizer.transformerFor source₁ raw₁).device_ip =
        (AlertNormalizer.transformerFor source₂ raw₂).device_ip →
      (AlertNormalizer.normalize source₁ raw₁).fingerprint =
        (AlertNormalizer.normalize source₂ raw₂).fingerprint) := by
  have key : ∀ s raw, (AlertNormalizer.normalize s raw).fingerprint =
      (sha256Hex (":" ++ (AlertNormalizer.transformerFor s raw).category ++ ":" ++
                  (AlertNormalizer.transformerFor s raw).title ++ ":" ++
                  (AlertNormalizer.transformerFor s raw).device_ip)).take 16 := by
    intro s raw
    have hb := transformerFor_blank s raw
    simp only [AlertNormalizer.normalize, AlertNormalizer.generate_fingerprint, hb.1, hb.2,
      if_true, string_empty_append]
  refine ⟨(transformerFor_blank source₁ raw₁).2, key source₁ raw₁, ?_⟩
  intro hc ht hip
  rw [key source₁ raw₁, key source₂ raw₂, hc, ht, hip]

/-- C1 amended-claim witness at the concrete suricata record and a
generic record with the same transformed (category, title, device-IP). -/
theorem c1_fingerprint_amended_witness :
    (AlertNormalizer.normalize "suricata" c1raw).fingerprint =
      (AlertNormalizer.normalize "generic"
        [("title", .str "ET SCAN Nmap"), ("category", .str "intrusion"),
         ("ip", .str "192.168.1.100")]).fingerprint :=
  (c1_fingerprint_amended "suricata" "generic" c1raw
    [("title", .str "ET SCAN Nmap"), ("category", .str "intrusion"),
     ("ip", .str "192.168.1.100")]).2.2 rfl rfl rfl

/-! ## C2 -/

/-- An alert with a fixed fingerprint, for dedup witnesses. -/
def aFp : NormalizedAlert := { title := "t", fingerprint := "fp" }

/-- C2: for every fingerprint and every `check` call — if an entry for
the alert's fingerprint exists and `now - last_seen ≤ window`, `check`
returns `(is_new := false, count + 1)` and the entry becomes
`(first_seen, now, count + 1)` (first-seen unchanged); in every other
case (expired entry, or no entry) it returns `(true, 1)` and the stored
entry becomes `(now, now, 1)`. Two identical records 10 s apart under a
60 s window return `(true, 1)` then `(false, 2)`. -/
theorem c2_dedup_check (d : AlertDeduplicator) (a : NormalizedAlert) (now : Int) :
    (∀ f l c, dictGet? d.seen a.fingerprint = some (f, l, c) →
      (now - l ≤ d.window →
        (d.check a now).1 = (false, c + 1) ∧
        dictGet? ((d.check a now).2).seen a.fingerprint = some (f, now, c + 1)) ∧
      (¬(now - l ≤ d.window) →
        (d.check a now).1 = (true, 1) ∧
        dictGet? ((d.check a now).2).seen a.fingerprint = some (now, now, 1))) ∧
    (dictGet? d.seen a.fingerprint = none →
      (d.check a now).1 = (true, 1) ∧
      dictGet? ((d.check a now).2).seen a.fingerprint = some (now, now, 1)) ∧
    (∀ b : NormalizedAlert,
      ((AlertDeduplicator.mk 60 10000 []).check b 0).1 = (true, 1) ∧
      ((((AlertDeduplicator.mk 60 10000 []).check b 0).2).check b 10).1 = (false, 2)) := by
  refine ⟨?_, ?_, ?_⟩
  · intro f l c h
    constructor
    · intro hw
      simp only [AlertDeduplicator.check, h, if_pos hw]
      exact ⟨trivial, dictGet?_dictSet_self _ _ _⟩
    · intro hw
      simp only [AlertDeduplicator.check, h, if_neg hw]
      exact ⟨trivial, dictGet?_dictSet_self _ _ _⟩
  · intro h
    simp only [AlertDeduplicator.check, h]
    exact ⟨trivial, dictGet?_dictSet_self _ _ _⟩
  · intro b
    refine ⟨rfl, ?_⟩
    simp [AlertDeduplicator.check, dictGet?, dictSet]

/-- C2 witness: an entry `(0, 0, 1)` for fingerprint "fp" seen again at
`now = 10` under a 60 s window is a duplicate with count 2. -/
theorem c2_dedup_check_witness :
    ((AlertDeduplicator.mk 60 10000 [("fp", (0, 0, 1))]).check aFp 10).1 = (false, 2) ∧
    dictGet? (((AlertDeduplicator.mk 60 10000 [("fp", (0, 0, 1))]).check aFp 10).2).seen
      aFp.fingerprint = some (0, 10, 2) :=
  ⟨(((c2_dedup_check (AlertDeduplicator.mk 60 10000 [("fp", (0, 0, 1))]) aFp 10).1
      0 0 1 rfl).1 (by decide)).1,
   (((c2_dedup_check (AlertDeduplicator.mk 60 10000 [("fp", (0, 0, 1))]) aFp 10).1
      0 0 1 rfl).1 (by decide)).2⟩

/-! ## C3 -/

/-- C3: whenever `create_scan` gets past its two guards (the only paths
that create a persisted scan record) the returned record's status is
terminal — and on an exception from the adapter's `execute`, the status
is `failed` with the error recorded, a `scan.failed` event is published,
and the call still returns normally instead of propagating. -/
theorem c3_create_scan (registryGet : Option MAdapter)
    (execFn : String → PyDict → Except String ExecResult)
    (scan_id scan_type tool target : String) (parameters : PyDict) (t0 t1 : Int) :
    (∀ s evs, ScanService.create_scan registryGet execFn scan_id scan_type tool target
        parameters t0 t1 = .ok (s, evs) →
      s.status = "completed" ∨ s.status = "failed" ∨ s.status = "cancelled") ∧
    (∀ ad e, registryGet = some ad → ad.status = ToolStatus.available →
      execFn (ScanService.map_scan_type_to_task scan_type tool)
        (ScanService.mergedParams target parameters) = .error e →
      ∃ s evs, ScanService.create_scan registryGet execFn scan_id scan_type tool target
          parameters t0 t1 = .ok (s, evs) ∧
        s.status = "failed" ∧ s.error_message = some e ∧
        (MEvent.mk "scan.failed" "scan_service"
          [("scan_id", scan_id), ("error", e)]) ∈ evs) := by
  constructor
  · intro s evs h
    cases hr : registryGet with
    | none => simp [ScanService.create_scan, hr] at h
    | some ad =>
      simp only [ScanService.create_scan, hr] at h
      by_cases hs : ad.status ≠ ToolStatus.available
      · rw [if_pos hs] at h
        simp at h
      · rw [if_neg hs] at h
        cases hx : execFn (ScanService.map_scan_type_to_task scan_type tool)
            (ScanService.mergedParams target parameters) with
        | ok r =>
          simp only [hx] at h
          cases he : r.error? with
          | some err =>
            simp only [he, Except.ok.injEq, Prod.mk.injEq] at h
            rw [← h.1]
            exact Or.inr (Or.inl rfl)
          | none =>
            simp only [he, Except.ok.injEq, Prod.mk.injEq] at h
            rw [← h.1]
            exact Or.inl rfl
        | error e =>
          simp only [hx, Except.ok.injEq, Prod.mk.injEq] at h
          rw [← h.1]
          exact Or.inr (Or.inl rfl)
  · intro ad e hr hs hx
    have hR : ScanService.create_scan registryGet execFn scan_id scan_type tool target
        parameters t0 t1 = .ok
        ({ id := scan_id, scan_type := scan_type, tool := tool, target := target,
           status := "failed", parameters := parameters, progress := 0,
           error_message := some e, started_at := some t0, completed_at := some t1 },
         [⟨"scan.started", "scan_service",
            [("scan_id", scan_id), ("tool", tool), ("target", target)]⟩,
          ⟨"scan.progress", "scan_service",
            [("scan_id", scan_id), ("progress", "0"), ("status", "running")]⟩,
          ⟨"scan.failed", "scan_service", [("scan_id", scan_id), ("error", e)]⟩]) := by
      simp only [ScanService.create_scan, hr, hx]
      rw [if_neg (by simp [hs])]
      simp
    exact ⟨_, _, hR, rfl, rfl, by simp⟩

/-- C3 witness: a registered, available tool whose `execute` raises. -/
theorem c3_create_scan_witness :
    ∃ s evs, ScanService.create_scan (some ⟨"nmap", ToolStatus.available⟩)
        (fun _ _ => Except.error "boom") "id1" "network" "nmap" "10.0.0.0/24" [] 0 5 =
          .ok (s, evs) ∧
      s.status = "failed" ∧ s.error_message = some "boom" ∧
      (MEvent.mk "scan.failed" "scan_service"
        [("scan_id", "id1"), ("error", "boom")]) ∈ evs :=
  (c3_create_scan (some ⟨"nmap", ToolStatus.available⟩) (fun _ _ => Except.error "boom")
    "id1" "network" "nmap" "10.0.0.0/24" [] 0 5).2 ⟨"nmap", ToolStatus.available⟩ "boom"
    rfl rfl rfl

/-! ## C4 -/

/-- C4 counterexample: on a host with no executables, running
`["nmap", "-sn", ...]` makes `run_command` propagate the
`FileNotFoundError` raised by process creation instead of returning a
failure result — refuting "returns a failure result and never raises". -/
theorem c4_counterexample :
    run_command [] (CommOutcome.completed "" "" 0) (Sum.inr ["nmap", "-sn", "192.168.1.0/24"]) =
      Except.error "FileNotFoundError: nmap" := rfl

/-- C4 (amended): on a command whose binary does not exist,
`run_command` propagates the spawn `FileNotFoundError` (the source has
no handler around `create_subprocess_exec`); when the binary exists it
returns a result, whose `success` is false on a timeout or a non-zero
exit code. -/
theorem c4_run_command_amended (binaries : List String) (comm : CommOutcome)
    (bin : String) (rest : List String) :
    (binaries.contains bin = false →
      run_command binaries comm (Sum.inr (bin :: rest)) =
        Except.error ("FileNotFoundError: " ++ bin)) ∧
    (binaries.contains bin = true →
      ∃ r, run_command binaries comm (Sum.inr (bin :: rest)) = Except.ok r ∧
        (∀ out err rc, comm = CommOutcome.timedOut out err rc → r.success = false) ∧
        (∀ out err rc, comm = CommOutcome.completed out err rc → rc ≠ 0 →
          r.success = false)) := by
  constructor
  · intro h
    have h' : bin ∉ binaries := by simpa using h
    simp [run_command, h']
  · intro h
    have h' : bin ∈ binaries := by simpa using h
    cases comm with
    | completed out err rc =>
      refine ⟨⟨rc, out, err, String.intercalate " " (bin :: rest), false⟩, ?_, ?_, ?_⟩
      · simp [run_command, h']
      · intro _ _ _ hc
        cases hc
      · intro out' err' rc' hc hrc
        cases hc
        simp [ProcessResult.success, hrc]
    | timedOut out err rc =>
      refine ⟨⟨rc, out, err, String.intercalate " " (bin :: rest), true⟩, ?_, ?_, ?_⟩
      · simp [run_command, h']
      · intro _ _ _ _
        simp [ProcessResult.success]
      · intro _ _ _ hc
        cases hc

/-- C4 amended-claim witness: a missing binary propagates the error; an
existing binary exiting non-zero yields a failure result. -/
theorem c4_run_command_amended_witness :
    run_command ["sh"] (CommOutcome.completed "" "" 1) (Sum.inr ["zzz"]) =
      Except.error ("FileNotFoundError: " ++ "zzz") ∧
    ∃ r, run_command ["sh"] (CommOutcome.completed "" "" 1) (Sum.inr ["sh"]) = Except.ok r ∧
      (∀ out err rc, CommOutcome.completed "" "" 1 = CommOutcome.timedOut out err rc →
        r.success = false) ∧
      (∀ out err rc, CommOutcome.completed "" "" 1 = CommOutcome.completed out err rc →
        rc ≠ 0 → r.success = false) :=
  ⟨(c4_run_command_amended ["sh"] (CommOutcome.completed "" "" 1) "zzz" []).1 rfl,
   (c4_run_command_amended ["sh"] (CommOutcome.completed "" "" 1) "sh" []).2 rfl⟩

/-! ## C5 -/

/-- The purge step of `correlate` (lines 33-37): the device's entries
still inside the window at time `now`. -/
def AlertCorrelator.purged (c : AlertCorrelator) (ip : String) (now : Int) :
    List (NormalizedAlert × String × Int) :=
  ((dictGet? c.recent ip).getD []).filter (fun e => decide (now - e.2.2 ≤ c.window))

/-- Alert A of the correlation scenario (suricata, 10.0.0.5). -/
def alertA : NormalizedAlert :=
  { title := "A", source_tool := "suricata", device_ip := "10.0.0.5", fingerprint := "fa" }

/-- Alert B of the correlation scenario (zeek, 10.0.0.5). -/
def alertB : NormalizedAlert :=
  { title := "B", source_tool := "zeek", device_ip := "10.0.0.5", fingerprint := "fb" }

/-- Alert C of the correlation scenario (suricata again, 10.0.0.5). -/
def alertC : NormalizedAlert :=
  { title := "C", source_tool := "suricata", device_ip := "10.0.0.5", fingerprint := "fc" }

/-- C5: `correlate` on an empty device IP returns no id and records
nothing; otherwise it purges the IP's expired entries, adopts the id of
the first remaining entry from a different source tool (appending the
incoming alert under it), or mints `uuid4().hex[:12]` (12 hex chars)
and appends under that. Scenario: suricata alert A then zeek alert B
30 s later on 10.0.0.5 share A's id, and a further suricata alert C
also receives it. -/
theorem c5_correlate (c : AlertCorrelator) (alert : NormalizedAlert) (now : Int)
    (uuid_hex : String) :
    (alert.device_ip = "" → AlertCorrelator.correlate c alert now uuid_hex = (none, c)) ∧
    (alert.device_ip ≠ "" →
      (∀ e, (AlertCorrelator.purged c alert.device_ip now).find?
          (fun e => e.1.source_tool != alert.source_tool) = some e →
        (AlertCorrelator.correlate c alert now uuid_hex).1 = some e.2.1 ∧
        dictGet? (AlertCorrelator.correlate c alert now uuid_hex).2.recent alert.device_ip =
          some (AlertCorrelator.purged c alert.device_ip now ++ [(alert, e.2.1, now)])) ∧
      ((AlertCorrelator.purged c alert.device_ip now).find?
          (fun e => e.1.source_tool != alert.source_tool) = none →
        (AlertCorrelator.correlate c alert now uuid_hex).1 = some (uuid_hex.take 12) ∧
        dictGet? (AlertCorrelator.correlate c alert now uuid_hex).2.recent alert.device_ip =
          some (AlertCorrelator.purged c alert.device_ip now ++
            [(alert, uuid_hex.take 12, now)]))) ∧
    ("0123456789abcdef0123456789abcdef".take 12 = "0123456789ab") ∧
    ((AlertCorrelator.mk 600 []).correlate alertA 0 "0123456789abcdef0123456789abcdef").1 =
        some "0123456789ab" ∧
    ((((AlertCorrelator.mk 600 []).correlate alertA 0
        "0123456789abcdef0123456789abcdef").2).correlate alertB 30
        "ffffffffffffffffffffffffffffffff").1 = some "0123456789ab" ∧
    ((((((AlertCorrelator.mk 600 []).correlate alertA 0
        "0123456789abcdef0123456789abcdef").2).correlate alertB 30
        "ffffffffffffffffffffffffffffffff").2).correlate alertC 60
        "eeeeeeeeeeeeeeeeeeeeeeeeeeeeeeee").1 = some "0123456789ab" := by
  refine ⟨?_, ?_, by decide, by decide, by decide, by decide⟩
  · intro h
    unfold AlertCorrelator.correlate
    rw [if_pos h]
  · intro h
    constructor
    · intro e hfind
      unfold AlertCorrelator.correlate
      rw [if_neg h]
      simp only [show (((dictGet? c.recent alert.device_ip).getD []).filter
          (fun e => decide (now - e.2.2 ≤ c.window))) =
          AlertCorrelator.purged c alert.device_ip now from rfl, hfind]
      exact ⟨trivial, dictGet?_dictSet_self _ _ _⟩
    · intro hfind
      unfold AlertCorrelator.correlate
      rw [if_neg h]
      simp only [show (((dictGet? c.recent alert.device_ip).getD []).filter
          (fun e => decide (now - e.2.2 ≤ c.window))) =
          AlertCorrelator.purged c alert.device_ip now from rfl, hfind]
      exact ⟨trivial, dictGet?_dictSet_self _ _ _⟩

/-- C5 witness: a device with one recent suricata entry correlates an
incoming zeek alert to that entry's id; a device with no entries mints
the uuid prefix. -/
theorem c5_correlate_witness :
    ((AlertCorrelator.mk 600 [("10.0.0.5", [(alertA, "aaaabbbbcccc", 0)])]).correlate
        alertB 30 "ffffffffffffffffffffffffffffffff").1 = some "aaaabbbbcccc" ∧
    ((AlertCorrelator.mk 600 []).correlate alertB 30
        "ffffffffffffffffffffffffffffffff").1 = some "ffffffffffff" :=
  ⟨(((c5_correlate (AlertCorrelator.mk 600 [("10.0.0.5", [(alertA, "aaaabbbbcccc", 0)])])
      alertB 30 "ffffffffffffffffffffffffffffffff").2.1 (by decide)).1
      (alertA, "aaaabbbbcccc", 0) rfl).1,
   (((c5_correlate (AlertCorrelator.mk 600 []) alertB 30
      "ffffffffffffffffffffffffffffffff").2.1 (by decide)).2 rfl).1⟩

/-! ## C6 -/

/-- The event `check_tool_health` publishes for one checked tool,
expressed against a fixed previous-status map: one event exactly when
a previous status is recorded and differs from the current one —
`tool.online` when the new status is available, `tool.offline`
otherwise. -/
def MonitoringService.emittedEvent (prev : List (String × ToolStatus))
    (p : String × ToolStatus) : Option MEvent :=
  match dictGet? prev p.1 with
  | some previous =>
    if previous ≠ p.2 then
      some ⟨(if p.2 = ToolStatus.available then "tool.online" else "tool.offline"),
        "monitoring_service",
        [("tool", p.1), ("status", p.2.value), ("previous_status", previous.value)]⟩
    else none
  | none => none

/-- The health fold threads the evolving previous-status map; with
distinct tool names it coincides with the pointwise description over
the initial map, and afterwards the map records every checked status. -/
theorem healthFold_spec (results : List (String × ToolStatus)) :
    ∀ (prev : List (String × ToolStatus)) (acc : List MEvent),
      (results.map Prod.fst).Nodup →
      (results.foldl MonitoringService.healthStep (acc, prev)).1 =
          acc ++ results.filterMap (MonitoringService.emittedEvent prev) ∧
      (∀ n, n ∉ results.map Prod.fst →
        dictGet? (results.foldl MonitoringService.healthStep (acc, prev)).2 n =
          dictGet? prev n) ∧
      (∀ n s, (n, s) ∈ results →
        dictGet? (results.foldl MonitoringService.healthStep (acc, prev)).2 n = some s) := by
  induction results with
  | nil =>
    intro prev acc _
    refine ⟨by simp, fun n _ => rfl, fun n s h => by simp at h⟩
  | cons p rest ih =>
    intro prev acc hnd
    rw [List.map_cons, List.nodup_cons] at hnd
    obtain ⟨hp, hnd'⟩ := hnd
    rw [List.foldl_cons]
    have hstep : MonitoringService.healthStep (acc, prev) p =
        (acc ++ (MonitoringService.emittedEvent prev p).toList, dictSet prev p.1 p.2) := by
      unfold MonitoringService.healthStep MonitoringService.emittedEvent
      cases hg : dictGet? prev p.1 with
      | none => simp
      | some pv =>
        by_cases hne : pv ≠ p.2 <;> simp [hne]
    rw [hstep]
    obtain ⟨ih1, ih2, ih3⟩ :=
      ih (dictSet prev p.1 p.2) (acc ++ (MonitoringService.emittedEvent prev p).toList) hnd'
    have hrest : rest.filterMap (MonitoringService.emittedEvent (dictSet prev p.1 p.2)) =
        rest.filterMap (MonitoringService.emittedEvent prev) := by
      apply List.filterMap_congr
      intro x hx
      have hxne : x.1 ≠ p.1 := by
        intro hc
        exact hp (hc ▸ List.mem_map_of_mem Prod.fst hx)
      unfold MonitoringService.emittedEvent
      rw [dictGet?_dictSet_ne _ _ _ _ hxne]
    refine ⟨?_, ?_, ?_⟩
    · rw [ih1, hrest, List.append_assoc, List.filterMap_cons]
      cases MonitoringService.emittedEvent prev p <;> simp
    · intro n hn
      rw [List.map_cons] at hn
      have hn1 : n ≠ p.1 := fun hc => hn (hc ▸ List.mem_cons_self _ _)
      have hn2 : n ∉ rest.map Prod.fst := fun hc => hn (List.mem_cons_of_mem _ hc)
      rw [ih2 n hn2, dictGet?_dictSet_ne _ _ _ _ hn1]
    · intro n s hmem
      rcases List.mem_cons.mp hmem with heq | hmem'
      · subst heq
        rw [ih2 n hp, dictGet?_dictSet_self]
      · exact ih3 n s hmem'

/-- C6 counterexample: with recorded previous status `unknown` for
"zeek" and current status available, the source emits a `tool.online`
event — refuting "an event is emitted only when the previous status
existed and was not unknown". -/
theorem c6_counterexample :
    dictGet? [("zeek", ToolStatus.unknown)] "zeek" = some ToolStatus.unknown ∧
    (MonitoringService.check_tool_health [("zeek", ToolStatus.unknown)]
        [("zeek", ToolStatus.available)]).1 =
      [⟨"tool.online", "monitoring_service",
        [("tool", "zeek"), ("status", "available"), ("previous_status", "unknown")]⟩] := by
  exact ⟨rfl, rfl⟩

/-- C6 (amended): with distinct tool names, an event is emitted for a
checked tool exactly when a previous status was recorded for it (even
`unknown`) and differs from the current one; the event is `tool.online`
when the new status is available, `tool.offline` otherwise; after the
run the previous-status map records the current status of every checked
tool. With previous nmap/zeek available and current zeek unavailable,
exactly one `tool.offline` for zeek is emitted. -/
theorem c6_check_tool_health_amended (prev results : List (String × ToolStatus))
    (hnd : (results.map Prod.fst).Nodup) :
    (MonitoringService.check_tool_health prev results).1 =
      results.filterMap (MonitoringService.emittedEvent prev) ∧
    (∀ n s, (n, s) ∈ results →
      dictGet? (MonitoringService.check_tool_health prev results).2.1 n = some s) ∧
    (MonitoringService.check_tool_health prev results).2.2 =
      results.map (fun p => (p.1, p.2.value)) ∧
    (MonitoringService.check_tool_health
        [("nmap", ToolStatus.available), ("zeek", ToolStatus.available)]
        [("nmap", ToolStatus.available), ("zeek", ToolStatus.unavailable)]).1 =
      [⟨"tool.offline", "monitoring_service",
        [("tool", "zeek"), ("status", "unavailable"), ("previous_status", "available")]⟩] := by
  obtain ⟨h1, _, h3⟩ := healthFold_spec results prev [] hnd
  exact ⟨h1, h3, rfl, rfl⟩

/-- C6 amended-claim witness at the nmap/zeek scenario. -/
theorem c6_check_tool_health_amended_witness :
    (MonitoringService.check_tool_health
        [("nmap", ToolStatus.available), ("zeek", ToolStatus.available)]
        [("nmap", ToolStatus.available), ("zeek", ToolStatus.unavailable)]).1 =
      [("nmap", ToolStatus.available), ("zeek", ToolStatus.unavailable)].filterMap
        (MonitoringService.emittedEvent
          [("nmap", ToolStatus.available), ("zeek", ToolStatus.available)]) :=
  (c6_check_tool_health_amended
    [("nmap", ToolStatus.available), ("zeek", ToolStatus.available)]
    [("nmap", ToolStatus.available), ("zeek", ToolStatus.unavailable)] (by decide)).1

/-! ## C7 -/

/-- `_upsert_port` modifies only the `ports` field of the device. -/
theorem upsert_port_proj (dev : MDevice) (pd : PortData) (pid : String) :
    (DeviceService.upsert_port dev pd pid).id = dev.id ∧
    (DeviceService.upsert_port dev pd pid).ip_address = dev.ip_address ∧
    (DeviceService.upsert_port dev pd pid).mac_address = dev.mac_address ∧
    (DeviceService.upsert_port dev pd pid).hostname = dev.hostname ∧
    (DeviceService.upsert_port dev pd pid).vendor = dev.vendor ∧
    (DeviceService.upsert_port dev pd pid).status = dev.status ∧
    (DeviceService.upsert_port dev pd pid).first_seen = dev.first_seen ∧
    (DeviceService.upsert_port dev pd pid).last_seen = dev.last_seen := by
  unfold DeviceService.upsert_port
  rcases hf : dev.ports.find? (fun p => p.port_number == pd.port.getD 0 &&
      p.protocol == pd.protocol.getD "tcp") with _ | p <;> simp [hf]

/-- The ports fold modifies only the `ports` field of the device. -/
theorem ports_fold_proj (pid : Nat → String) (l : List (Nat × PortData)) :
    ∀ dev : MDevice,
      (l.foldl (fun dev ip => DeviceService.upsert_port dev ip.2 (pid ip.1)) dev).id = dev.id ∧
      (l.foldl (fun dev ip => DeviceService.upsert_port dev ip.2 (pid ip.1)) dev).ip_address =
        dev.ip_address ∧
      (l.foldl (fun dev ip => DeviceService.upsert_port dev ip.2 (pid ip.1)) dev).mac_address =
        dev.mac_address ∧
      (l.foldl (fun dev ip => DeviceService.upsert_port dev ip.2 (pid ip.1)) dev).hostname =
        dev.hostname ∧
      (l.foldl (fun dev ip => DeviceService.upsert_port dev ip.2 (pid ip.1)) dev).vendor =
        dev.vendor ∧
      (l.foldl (fun dev ip => DeviceService.upsert_port dev ip.2 (pid ip.1)) dev).status =
        dev.status ∧
      (l.foldl (fun dev ip => DeviceService.upsert_port dev ip.2 (pid ip.1)) dev).first_seen =
        dev.first_seen ∧
      (l.foldl (fun dev ip => DeviceService.upsert_port dev ip.2 (pid ip.1)) dev).last_seen =
        dev.last_seen := by
  induction l with
  | nil => intro dev; exact ⟨rfl, rfl, rfl, rfl, rfl, rfl, rfl, rfl⟩
  | cons q t ih =>
    intro dev
    rw [List.foldl_cons]
    obtain ⟨i1, i2, i3, i4, i5, i6, i7, i8⟩ := ih (DeviceService.upsert_port dev q.2 (pid q.1))
    obtain ⟨u1, u2, u3, u4, u5, u6, u7, u8⟩ := upsert_port_proj dev q.2 (pid q.1)
    exact ⟨i1.trans u1, i2.trans u2, i3.trans u3, i4.trans u4, i5.trans u5,
           i6.trans u6, i7.trans u7, i8.trans u8⟩

/-- `apply_os_and_ports` modifies only `os_family` and `ports`. -/
theorem apply_os_and_ports_proj (dev : MDevice) (h : HostData) (pid : Nat → String) :
    (DeviceService.apply_os_and_ports dev h pid).id = dev.id ∧
    (DeviceService.apply_os_and_ports dev h pid).ip_address = dev.ip_address ∧
    (DeviceService.apply_os_and_ports dev h pid).mac_address = dev.mac_address ∧
    (DeviceService.apply_os_and_ports dev h pid).hostname = dev.hostname ∧
    (DeviceService.apply_os_and_ports dev h pid).vendor = dev.vendor ∧
    (DeviceService.apply_os_and_ports dev h pid).status = dev.status ∧
    (DeviceService.apply_os_and_ports dev h pid).first_seen = dev.first_seen ∧
    (DeviceService.apply_os_and_ports dev h pid).last_seen = dev.last_seen := by
  unfold DeviceService.apply_os_and_ports
  by_cases hos : optTruthy h.os_name
  · rw [if_pos hos]
    exact ports_fold_proj pid h.ports.enum _
  · rw [if_neg hos]
    exact ports_fold_proj pid h.ports.enum _

/-- The merge branch of `upsert_from_scan`: the exact field values of
the updated device and the successor store. -/
theorem upsert_merge_fields (store : List MDevice) (h : HostData) (now : Int)
    (new_id : String) (pid : Nat → String) (d : MDevice)
    (hfind : store.find? (fun d => d.ip_address == h.ipv4.getD "" ||
      (optTruthy h.mac && d.mac_address == h.mac)) = some d) :
    (DeviceService.upsert_from_scan store h now new_id pid).1.mac_address =
      (if optTruthy h.mac && !(optTruthy d.mac_address) then h.mac else d.mac_address) ∧
    (DeviceService.upsert_from_scan store h now new_id pid).1.hostname =
      (if optTruthy h.hostnames.head? && !(optTruthy d.hostname) then h.hostnames.head?
       else d.hostname) ∧
    (DeviceService.upsert_from_scan store h now new_id pid).1.vendor =
      (if optTruthy h.vendor && !(optTruthy d.vendor) then h.vendor else d.vendor) ∧
    (DeviceService.upsert_from_scan store h now new_id pid).1.last_seen = now ∧
    (DeviceService.upsert_from_scan store h now new_id pid).1.status =
      h.status.getD d.status ∧
    (DeviceService.upsert_from_scan store h now new_id pid).2.1 =
      store.map (fun x => if x.id == d.id then
        (DeviceService.upsert_from_scan store h now new_id pid).1 else x) := by
  unfold DeviceService.upsert_from_scan
  simp only [hfind]
  obtain ⟨p1, p2, p3, p4, p5, p6, p7, p8⟩ := apply_os_and_ports_proj
    { d with
      mac_address := if optTruthy h.mac && !(optTruthy d.mac_address) then h.mac
        else d.mac_address,
      hostname := if optTruthy h.hostnames.head? && !(optTruthy d.hostname) then
        h.hostnames.head? else d.hostname,
      vendor := if optTruthy h.vendor && !(optTruthy d.vendor) then h.vendor else d.vendor,
      last_seen := now,
      status := h.status.getD d.status } h pid
  exact ⟨p3, p4, p5, p8, p6, trivial⟩

/-- C7: merging a scan host onto an existing device never overwrites a
non-empty hostname, vendor or MAC (it never overwrites them at all),
sets last-seen to the upsert time and adopts a reported status; and
upserting the same host twice from an empty store yields exactly one
device whose last-seen is the second (later) upsert time and whose
non-empty hostname/vendor survive. -/
theorem c7_upsert_from_scan :
    (∀ (store : List MDevice) (h : HostData) (now : Int) (new_id : String)
        (pid : Nat → String) (d : MDevice),
      store.find? (fun d => d.ip_address == h.ipv4.getD "" ||
        (optTruthy h.mac && d.mac_address == h.mac)) = some d →
      (optTruthy d.hostname = true →
        (DeviceService.upsert_from_scan store h now new_id pid).1.hostname = d.hostname) ∧
      (optTruthy d.vendor = true →
        (DeviceService.upsert_from_scan store h now new_id pid).1.vendor = d.vendor) ∧
      (optTruthy d.mac_address = true →
        (DeviceService.upsert_from_scan store h now new_id pid).1.mac_address =
          d.mac_address) ∧
      (DeviceService.upsert_from_scan store h now new_id pid).1.last_seen = now ∧
      (∀ st, h.status = some st →
        (DeviceService.upsert_from_scan store h now new_id pid).1.status = st)) ∧
    (∀ (h : HostData) (t1 t2 : Int) (id1 id2 : String) (pid1 pid2 : Nat → String),
      t1 ≤ t2 →
      ((DeviceService.upsert_from_scan
          (DeviceService.upsert_from_scan [] h t1 id1 pid1).2.1 h t2 id2 pid2).2.1).length = 1 ∧
      (DeviceService.upsert_from_scan
          (DeviceService.upsert_from_scan [] h t1 id1 pid1).2.1 h t2 id2 pid2).1.last_seen =
        t2 ∧
      (optTruthy (DeviceService.upsert_from_scan [] h t1 id1 pid1).1.hostname = true →
        (DeviceService.upsert_from_scan
            (DeviceService.upsert_from_scan [] h t1 id1 pid1).2.1 h t2 id2 pid2).1.hostname =
          (DeviceService.upsert_from_scan [] h t1 id1 pid1).1.hostname) ∧
      (optTruthy (DeviceService.upsert_from_scan [] h t1 id1 pid1).1.vendor = true →
        (DeviceService.upsert_from_scan
            (DeviceService.upsert_from_scan [] h t1 id1 pid1).2.1 h t2 id2 pid2).1.vendor =
          (DeviceService.upsert_from_scan [] h t1 id1 pid1).1.vendor)) := by
  have main : ∀ (store : List MDevice) (h : HostData) (now : Int) (new_id : String)
      (pid : Nat → String) (d : MDevice),
      store.find? (fun d => d.ip_address == h.ipv4.getD "" ||
        (optTruthy h.mac && d.mac_address == h.mac)) = some d →
      (optTruthy d.hostname = true →
        (DeviceService.upsert_from_scan store h now new_id pid).1.hostname = d.hostname) ∧
      (optTruthy d.vendor = true →
        (DeviceService.upsert_from_scan store h now new_id pid).1.vendor = d.vendor) ∧
      (optTruthy d.mac_address = true →
        (DeviceService.upsert_from_scan store h now new_id pid).1.mac_address =
          d.mac_address) ∧
      (DeviceService.upsert_from_scan store h now new_id pid).1.last_seen = now ∧
      (∀ st, h.status = some st →
        (DeviceService.upsert_from_scan store h now new_id pid).1.status = st) := by
    intro store h now new_id pid d hfind
    obtain ⟨m1, m2, m3, m4, m5, _⟩ := upsert_merge_fields store h now new_id pid d hfind
    refine ⟨?_, ?_, ?_, m4, ?_⟩
    · intro hh
      rw [m2, hh]
      simp
    · intro hh
      rw [m3, hh]
      simp
    · intro hh
      rw [m1, hh]
      simp
    · intro st hst
      rw [m5, hst]
      rfl
  refine ⟨main, ?_⟩
  intro h t1 t2 id1 id2 pid1 pid2 _
  have hstore1 : (DeviceService.upsert_from_scan [] h t1 id1 pid1).2.1 =
      [(DeviceService.upsert_from_scan [] h t1 id1 pid1).1] := by
    unfold DeviceService.upsert_from_scan
    simp
  have hip : (DeviceService.upsert_from_scan [] h t1 id1 pid1).1.ip_address =
      h.ipv4.getD "" := by
    unfold DeviceService.upsert_from_scan
    simp only [List.find?_nil]
    exact (apply_os_and_ports_proj _ h pid1).2.1
  have hfind2 : (DeviceService.upsert_from_scan [] h t1 id1 pid1).2.1.find?
      (fun d => d.ip_address == h.ipv4.getD "" ||
        (optTruthy h.mac && d.mac_address == h.mac)) =
      some (DeviceService.upsert_from_scan [] h t1 id1 pid1).1 := by
    rw [hstore1]
    exact List.find?_cons_of_pos _ (by simp [hip])
  obtain ⟨m1, m2, m3, m4, m5, m6⟩ := upsert_merge_fields _ h t2 id2 pid2 _ hfind2
  obtain ⟨g1, g2, g3, g4, g5⟩ := main _ h t2 id2 pid2 _ hfind2
  refine ⟨?_, g4, g1, g2⟩
  rw [m6, hstore1]
  simp

/-- The merged host record of the C7 witness. -/
def host1 : HostData :=
  { ipv4 := some "192.168.1.1", mac := some "AA:BB:CC:DD:EE:FF", vendor := some "",
    hostnames := ["router.local"], status := some "online" }

/-- The pre-existing device of the C7 witness. -/
def dev0 : MDevice :=
  { id := "d0", ip_address := "192.168.1.1", hostname := some "gateway",
    vendor := some "VendorX", status := "online", first_seen := 0, last_seen := 0 }

/-- C7 witness: the existing hostname survives a merge, last-seen
advances, and the double upsert from an empty store leaves one device. -/
theorem c7_upsert_from_scan_witness :
    (DeviceService.upsert_from_scan [dev0] host1 5 "n1" (fun _ => "p")).1.hostname =
      dev0.hostname ∧
    (DeviceService.upsert_from_scan [dev0] host1 5 "n1" (fun _ => "p")).1.last_seen = 5 ∧
    ((DeviceService.upsert_from_scan
        (DeviceService.upsert_from_scan [] host1 0 "a" (fun _ => "p")).2.1 host1 5 "b"
        (fun _ => "q")).2.1).length = 1 :=
  ⟨((c7_upsert_from_scan.1 [dev0] host1 5 "n1" (fun _ => "p") dev0 rfl).1) rfl,
   (c7_upsert_from_scan.1 [dev0] host1 5 "n1" (fun _ => "p") dev0 rfl).2.2.2.1,
   (c7_upsert_from_scan.2 host1 0 5 "a" "b" (fun _ => "p") (fun _ => "q") (by decide)).1⟩

/-! ## C8 -/

theorem contains_iff_mem {l : List String} {a : String} : l.contains a = true ↔ a ∈ l := by
  show l.elem a = true ↔ a ∈ l
  exact List.elem_iff

theorem any_of_dictGet?_some {α : Type} {l : List (String × α)} {k : String} {v : α}
    (h : dictGet? l k = some v) : l.any (fun p => p.1 == k) = true := by
  unfold dictGet? at h
  cases hf : l.find? (fun p => p.1 == k) with
  | none => rw [hf] at h; simp at h
  | some p =>
    have h1 : p ∈ l := List.mem_of_find?_eq_some hf
    have h2 : (p.1 == k) = true := by
      have h3 := List.find?_some hf
      simpa using h3
    exact List.any_eq_true.mpr ⟨p, h1, h2⟩

theorem any_of_dictGet?_none {α : Type} {l : List (String × α)} {k : String}
    (h : dictGet? l k = none) : l.any (fun p => p.1 == k) = false := by
  unfold dictGet? at h
  cases hf : l.find? (fun p => p.1 == k) with
  | some p => rw [hf] at h; simp at h
  | none =>
    rw [List.find?_eq_none] at hf
    by_contra hc
    rw [Bool.not_eq_false, List.any_eq_true] at hc
    obtain ⟨x, hx, hpx⟩ := hc
    exact hf x hx hpx

theorem dictSet_length_of_any {α : Type} (l : List (String × α)) (k : String) (v : α)
    (h : l.any (fun p => p.1 == k) = true) : (dictSet l k v).length = l.length := by
  unfold dictSet
  rw [if_pos h, List.length_map]

theorem dictSet_length_of_not_any {α : Type} (l : List (String × α)) (k : String) (v : α)
    (h : l.any (fun p => p.1 == k) = false) : (dictSet l k v).length = l.length + 1 := by
  unfold dictSet
  rw [if_neg (by simp [h]), List.length_append]
  rfl

/-- `_evict_oldest` removes exactly `max 1 (len // 4)` entries (under
unique fingerprints), and every removed entry's `last_seen` is no
greater than every survivor's. -/
theorem evict_oldest_spec (seen : List (String × (Int × Int × Int)))
    (hnd : (seen.map Prod.fst).Nodup) :
    (AlertDeduplicator.evict_oldest seen).length =
      seen.length - (if seen.length / 4 = 0 then 1 else seen.length / 4) ∧
    (∀ p, p ∈ seen → p ∉ AlertDeduplicator.evict_oldest seen →
      ∀ q, q ∈ AlertDeduplicator.evict_oldest seen → p.2.2.1 ≤ q.2.2.1) := by
  have hev : AlertDeduplicator.evict_oldest seen =
      seen.filter (fun p =>
        !((((seen.mergeSort (fun p q => decide (p.2.2.1 ≤ q.2.2.1))).map (fun x => x.1)).take
          (if seen.length / 4 = 0 then 1 else seen.length / 4)).contains p.1)) := rfl
  set k := if seen.length / 4 = 0 then 1 else seen.length / 4 with hk
  set S := seen.mergeSort (fun p q => decide (p.2.2.1 ≤ q.2.2.1)) with hS
  set pred := fun (p : String × (Int × Int × Int)) =>
    !(((S.map (fun x => x.1)).take k).contains p.1) with hpred
  have hperm : List.Perm S seen := List.mergeSort_perm seen _
  have hpair : S.Pairwise (fun p q => decide (p.2.2.1 ≤ q.2.2.1) = true) := by
    apply List.sorted_mergeSort
    · intro a b c hab hbc
      rw [decide_eq_true_eq] at *
      exact le_trans hab hbc
    · intro a b
      rcases le_total a.2.2.1 b.2.2.1 with h | h <;> simp [h]
  have hnodupS : (S.map Prod.fst).Nodup := ((hperm.map Prod.fst).nodup_iff).mpr hnd
  have hdisj : List.Disjoint ((S.map Prod.fst).take k) ((S.map Prod.fst).drop k) := by
    apply List.disjoint_of_nodup_append
    rw [List.take_append_drop]
    exact hnodupS
  have hmemtake : ∀ x ∈ S.take k, pred x = false := by
    intro x hx
    have hx1 : x.1 ∈ (S.map Prod.fst).take k := by
      rw [← List.map_take]
      exact List.mem_map_of_mem Prod.fst hx
    simp only [hpred, Bool.not_eq_false']
    exact contains_iff_mem.mpr hx1
  have hmemdrop : ∀ x ∈ S.drop k, pred x = true := by
    intro x hx
    have hx1 : x.1 ∈ (S.map Prod.fst).drop k := by
      rw [← List.map_drop]
      exact List.mem_map_of_mem Prod.fst hx
    simp only [hpred, Bool.not_eq_true']
    by_contra hc
    rw [Bool.not_eq_false] at hc
    exact hdisj (contains_iff_mem.mp hc) hx1
  have hfiltS : S.filter pred = S.drop k := by
    conv_lhs => rw [← List.take_append_drop k S]
    rw [List.filter_append, List.filter_eq_nil_iff.mpr (fun a ha hpa => by
        rw [hmemtake a ha] at hpa; exact absurd hpa (by simp)),
      List.filter_eq_self.mpr hmemdrop, List.nil_append]
  constructor
  · rw [hev]
    have hlen : (seen.filter pred).length = (S.filter pred).length :=
      ((hperm.filter pred).length_eq).symm
    rw [hlen, hfiltS, List.length_drop, List.length_mergeSort]
  · intro p hp hpev q hqev
    rw [hev] at hqev hpev
    have hq := List.mem_filter.mp hqev
    have hpS : p ∈ S := hperm.mem_iff.mpr hp
    have hqS : q ∈ S := hperm.mem_iff.mpr hq.1
    have hppred : pred p = false := by
      by_contra hc
      rw [Bool.not_eq_false] at hc
      exact hpev (List.mem_filter.mpr ⟨hp, hc⟩)
    have hptake : p ∈ S.take k := by
      rcases List.mem_append.mp (by rw [List.take_append_drop k S]; exact hpS) with h | h
      · exact h
      · rw [hmemdrop p h] at hppred
        exact absurd hppred (by simp)
    have hqdrop : q ∈ S.drop k := by
      rcases List.mem_append.mp (by rw [List.take_append_drop k S]; exact hqS) with h | h
      · rw [hmemtake q h] at hq
        exact absurd hq.2 (by simp)
      · exact h
    have := (List.pairwise_append.mp (by rw [List.take_append_drop k S]; exact hpair)).2.2
      p hptake q hqdrop
    exact of_decide_eq_true this

/-- An alert with an unseen fingerprint, for the C8 counterexample. -/
def aG : NormalizedAlert := { title := "g", fingerprint := "g" }

/-- C8 counterexample: with max-size 1 (≥ 1 as the claim assumes) and
the table at max size, a check on an unseen fingerprint evicts the
single existing entry — 100 % of the existing entries, refuting
"at most 25 %". -/
theorem c8_counterexample :
    (AlertDeduplicator.evict_oldest [("f", ((0 : Int), (0 : Int), (1 : Int)))]).length = 0 ∧
    ¬(4 * (1 - (AlertDeduplicator.evict_oldest
        [("f", ((0 : Int), (0 : Int), (1 : Int)))]).length) ≤ 1) ∧
    ((AlertDeduplicator.mk 300 1 [("f", (0, 0, 1))]).check aG 5).2.seen =
      [("g", (5, 5, 1))] := by
  refine ⟨?_, ?_, ?_⟩ <;> simp [AlertDeduplicator.evict_oldest, AlertDeduplicator.check,
    dictGet?, dictSet, aG]

/-- C8 (amended): under max-size ≥ 1, unique fingerprints, and the
size invariant, every `check` and every `cleanup` keeps the table at or
below max-size; when a check on an unseen fingerprint finds the table
at max size it evicts exactly `max 1 (len // 4)` entries — at least one,
and at most 25 % of the existing entries whenever max-size ≥ 4 — each
evicted entry's last-seen being no greater than every retained
entry's. -/
theorem c8_dedup_bounds (d : AlertDeduplicator) (a : NormalizedAlert) (now : Int)
    (hmax : 1 ≤ d.max_size) (hpre : d.seen.length ≤ d.max_size)
    (hnd : (d.seen.map Prod.fst).Nodup) :
    ((d.check a now).2).seen.length ≤ d.max_size ∧
    ((d.cleanup now).2).seen.length ≤ d.max_size ∧
    (AlertDeduplicator.evict_oldest d.seen).length =
      d.seen.length - (if d.seen.length / 4 = 0 then 1 else d.seen.length / 4) ∧
    (d.seen ≠ [] →
      (AlertDeduplicator.evict_oldest d.seen).length < d.seen.length) ∧
    (4 ≤ d.seen.length →
      4 * (d.seen.length - (AlertDeduplicator.evict_oldest d.seen).length) ≤
        d.seen.length) ∧
    (∀ p, p ∈ d.seen → p ∉ AlertDeduplicator.evict_oldest d.seen →
      ∀ q, q ∈ AlertDeduplicator.evict_oldest d.seen → p.2.2.1 ≤ q.2.2.1) := by
  obtain ⟨hlen, horder⟩ := evict_oldest_spec d.seen hnd
  have hcheck : ((d.check a now).2).seen.length ≤ d.max_size := by
    cases hget : dictGet? d.seen a.fingerprint with
    | some e =>
      obtain ⟨f, l, c⟩ := e
      have hany := any_of_dictGet?_some hget
      simp only [AlertDeduplicator.check, hget]
      by_cases hw : now - l ≤ d.window
      · rw [if_pos hw]
        simpa [dictSet_length_of_any _ _ _ hany] using hpre
      · rw [if_neg hw]
        simpa [dictSet_length_of_any _ _ _ hany] using hpre
    | none =>
      have hany := any_of_dictGet?_none hget
      simp only [AlertDeduplicator.check, hget]
      by_cases hfull : d.seen.length ≥ d.max_size
      · rw [if_pos hfull]
        have hanyev : (AlertDeduplicator.evict_oldest d.seen).any
            (fun p => p.1 == a.fingerprint) = false := by
          by_contra hc
          rw [Bool.not_eq_false, List.any_eq_true] at hc
          obtain ⟨x, hx, hpx⟩ := hc
          have hxseen : x ∈ d.seen := List.filter_subset' d.seen hx
          rw [← Bool.not_eq_true, List.any_eq_true] at hany
          exact hany ⟨x, hxseen, hpx⟩
        have := dictSet_length_of_not_any (AlertDeduplicator.evict_oldest d.seen)
          a.fingerprint (now, now, 1) hanyev
        simp only [this, hlen]
        have hk1 : 1 ≤ (if d.seen.length / 4 = 0 then 1 else d.seen.length / 4) := by
          split
          · exact le_refl 1
          · omega
        omega
      · rw [if_neg hfull]
        have := dictSet_length_of_not_any d.seen a.fingerprint (now, now, 1) hany
        simp only [this]
        omega
  refine ⟨hcheck, ?_, hlen, ?_, ?_, horder⟩
  · simp only [AlertDeduplicator.cleanup]
    exact le_trans (List.length_filter_le _ _) hpre
  · intro hne
    have hk1 : 1 ≤ (if d.seen.length / 4 = 0 then 1 else d.seen.length / 4) := by
      split
      · exact le_refl 1
      · omega
    have hpos : 0 < d.seen.length := List.length_pos.mpr hne
    omega
  · intro h4
    have hk4 : (if d.seen.length / 4 = 0 then 1 else d.seen.length / 4) =
        d.seen.length / 4 := by
      split
      · omega
      · rfl
    rw [hlen, hk4]
    omega

/-- C8 witness: a full four-entry table at max-size 4; the bounds apply
with every hypothesis discharged. -/
theorem c8_dedup_bounds_witness :
    ((AlertDeduplicator.mk 300 4
        [("a", (0, 0, 1)), ("b", (0, 1, 1)), ("c", (0, 2, 1)), ("d", (0, 3, 1))]).check aG
        5).2.seen.length ≤ 4 ∧
    (AlertDeduplicator.evict_oldest
        [("a", ((0 : Int), (0 : Int), (1 : Int))), ("b", (0, 1, 1)), ("c", (0, 2, 1)),
         ("d", (0, 3, 1))]).length = 4 - (if 4 / 4 = 0 then 1 else 4 / 4) :=
  ⟨(c8_dedup_bounds (AlertDeduplicator.mk 300 4
      [("a", (0, 0, 1)), ("b", (0, 1, 1)), ("c", (0, 2, 1)), ("d", (0, 3, 1))]) aG 5
      (by decide) (by decide) (by decide)).1,
   (c8_dedup_bounds (AlertDeduplicator.mk 300 4
      [("a", (0, 0, 1)), ("b", (0, 1, 1)), ("c", (0, 2, 1)), ("d", (0, 3, 1))]) aG 5
      (by decide) (by decide) (by decide)).2.2.1⟩

/-! ## C9 -/

/-- C9 counterexample: a well-formed XML document whose `runstats/hosts`
element carries a non-numeric `up` attribute makes `_parse_xml` raise
`ValueError` from `int(...)` (only `ET.ParseError` is caught) — refuting
"returns a result map and never raises for every input". -/
theorem c9_counterexample :
    NmapAdapter.parse_xml (Except.ok (XElem.mk "nmaprun" []
        [XElem.mk "runstats" [] [XElem.mk "hosts" [("up", "x")] []]]))
        "<nmaprun><runstats><hosts up=x/></runstats></nmaprun>" =
      Except.error "invalid literal for int with base 10: x" := by
  rfl

/-- C9 (amended): a malformed document (an `ET.ParseError` from
`fromstring`) yields the `{error, raw truncated to 2000}` map without
raising, and a host element with no `ports` child parses to a host
record with an empty port list; the parser raises only when an
`int(...)` conversion of a numeric attribute (port id or runstats
counter) fails. -/
theorem c9_parse_xml_amended :
    (∀ e s, NmapAdapter.parse_xml (Except.error e) s =
      Except.ok (NmapParse.errorMap ("XML parse error: " ++ e) (s.take 2000))) ∧
    (∀ host_elem : XElem, host_elem.find "ports" = none →
      ∃ ph, NmapAdapter.parse_host host_elem = Except.ok ph ∧ ph.ports = []) := by
  constructor
  · intro e s
    rfl
  · intro host_elem hfind
    have heq : NmapAdapter.parse_host host_elem = Except.ok
        { status :=
            match host_elem.find "status" with
            | some st => st.get "state" "unknown"
            | none => "unknown",
          addresses := (host_elem.findall "address").foldl
            (fun acc addr =>
              let addr_type := addr.get "addrtype" ""
              let acc := dictSet acc addr_type (addr.get "addr" "")
              if addr_type == "mac" then dictSet acc "vendor" (addr.get "vendor" "") else acc)
            [],
          hostnames :=
            match host_elem.find "hostnames" with
            | some hns => (hns.findall "hostname").map
                (fun hn => (hn.get "name" "", hn.get "type" ""))
            | none => [],
          ports := [],
          os :=
            match host_elem.find "os" with
            | some os_elem =>
              match os_elem.find "osmatch" with
              | some osmatch => some (osmatch.get "name" "", osmatch.get "accuracy" "")
              | none => none
            | none => none } := by
      unfold NmapAdapter.parse_host
      rw [hfind]
      rfl
    exact ⟨_, heq, rfl⟩

/-- C9 amended-claim witness: a malformed document and a ports-less
host element. -/
theorem c9_parse_xml_amended_witness :
    NmapAdapter.parse_xml (Except.error "syntax error: line 1, column 0") "not xml" =
      Except.ok (NmapParse.errorMap ("XML parse error: " ++ "syntax error: line 1, column 0")
        ("not xml".take 2000)) ∧
    ∃ ph, NmapAdapter.parse_host
        (XElem.mk "host" [] [XElem.mk "status" [("state", "up")] []]) = Except.ok ph ∧
      ph.ports = [] :=
  ⟨c9_parse_xml_amended.1 "syntax error: line 1, column 0" "not xml",
   c9_parse_xml_amended.2 (XElem.mk "host" [] [XElem.mk "status" [("state", "up")] []]) rfl⟩

/-! ## C10 -/

/-- C10: once `init_all` has completed (`_initialized` is true), every
further call invokes no adapter's `detect` or `start` (empty trace),
leaves the registry — hence every descriptor's status — unchanged, and
returns for each registered tool exactly whether its current status
equals available; and a completing first run sets `_initialized`. -/
theorem c10_init_all (r : AdapterRegistry)
    (detectFn : MAdapter → MAdapter × Except String Bool)
    (startFn : String → Except String Unit) :
    (r.initialized = true →
      AdapterRegistry.init_all r detectFn startFn =
        (r.adapters.map (fun a => (a.name, a.status == ToolStatus.available)), r, [])) ∧
    (AdapterRegistry.init_all { adapters := r.adapters, initialized := false } detectFn
        startFn).2.1.initialized = true := by
  constructor
  · intro h
    unfold AdapterRegistry.init_all
    rw [if_pos h]
  · unfold AdapterRegistry.init_all
    rw [if_neg (by simp)]

/-- C10 witness: a registry already initialized with one available and
one unavailable adapter returns the availability map with no
detect/start calls and an unchanged registry. -/
theorem c10_init_all_witness :
    AdapterRegistry.init_all
        ⟨[⟨"nmap", ToolStatus.available⟩, ⟨"zeek", ToolStatus.unavailable⟩], true⟩
        (fun a => (a, Except.ok true)) (fun _ => Except.ok ()) =
      ([("nmap", true), ("zeek", false)],
       ⟨[⟨"nmap", ToolStatus.available⟩, ⟨"zeek", ToolStatus.unavailable⟩], true⟩, []) :=
  (c10_init_all ⟨[⟨"nmap", ToolStatus.available⟩, ⟨"zeek", ToolStatus.unavailable⟩], true⟩
    (fun a => (a, Except.ok true)) (fun _ => Except.ok ())).1 rfl

end NetSec

